import Mathlib

/-!
Verification of the SplashSrv game server against its specification.

The Rust sources are shallowly embedded as Lean definitions:
* machine integers (`u32`, `u16`, `i32`, `i8`) become `Nat` / `Int`, with an
  explicit `% 2 ^ 32` at each place where the Rust computation can wrap;
* fallible Rust code (`Result`, `DekuError`, `anyhow::bail!`) becomes `Option`
  or an explicit result type;
* a Rust `panic!` / `.unwrap()` failure is a distinguished `panic` result;
* the inherently diverging CID-generation loop is modelled with explicit fuel,
  `none` standing for non-termination.
-/

namespace SplashSrv

/-! ## Character identifiers (src/data/character.rs) -/

/-- The seven playable characters, `enum CharID` in `src/data/character.rs`. -/
inductive CharID where
  | rusk
  | miel
  | rose
  | chocola
  | shelly
  | gouda
  | sect
deriving DecidableEq, Repr

/-- `CharID::to_index`. -/
def CharID.to_index : CharID → ℕ
  | .rusk => 1
  | .miel => 2
  | .rose => 3
  | .chocola => 4
  | .shelly => 5
  | .gouda => 6
  | .sect => 7

/-- `CharID::from_index`. -/
def CharID.from_index : ℕ → Option CharID
  | 1 => some .rusk
  | 2 => some .miel
  | 3 => some .rose
  | 4 => some .chocola
  | 5 => some .shelly
  | 6 => some .gouda
  | 7 => some .sect
  | _ => none

/-! ## Optional-value sub-field codec (src/data/appearance.rs)

`unpack_optional` / `pack_optional` handle the 10-bit "maybe absent" values
used throughout the appearance record.  A `DekuError` result of `pack_optional`
is modelled as `none`. -/

/-- `fn unpack_optional(input: u32) -> Option<u16>`. -/
def unpack_optional (input : ℕ) : Option ℕ :=
  if 1 ≤ input ∧ input ≤ 0x3FF then some (input - 1) else none

/-- `fn pack_optional(input: Option<u16>) -> Result<u32, DekuError>`;
`none` in the result models the `DekuError::InvalidParam` range error. -/
def pack_optional (input : Option ℕ) : Option ℕ :=
  match input with
  | none => some 0
  | some num => if num ≤ 0x3FE then some (num + 1) else none

/-! ## Item identifiers and counted items (src/data/item.rs) -/

/-- `struct Item(pub u32)`. -/
structure Item where
  val : ℕ
deriving DecidableEq, Repr

/-- `struct CountedItem(pub u32)`. -/
structure CountedItem where
  val : ℕ
deriving DecidableEq, Repr

/-- `CountedItem::new(item, count)`: `assert!(count <= 0x3FF)` then
`(item.0 << 10) | count`.  `none` models the assertion panic; the `% 2 ^ 32`
models the wrapping `u32` shift. -/
def CountedItem.new (item : Item) (count : ℕ) : Option CountedItem :=
  if count ≤ 0x3FF then some ⟨(item.val <<< 10) % 2 ^ 32 ||| count⟩ else none

/-- `CountedItem::item`: `Item(self.0 >> 10)`. -/
def CountedItem.item (c : CountedItem) : Item := ⟨c.val >>> 10⟩

/-- `CountedItem::count`: `self.0 & 0x3FF`. -/
def CountedItem.count (c : CountedItem) : ℕ := c.val &&& 0x3FF

/-! ## The appearance packed-record codec (src/data/appearance.rs) -/

/-- `struct Appearance`; all `u16` fields become `ℕ` (theorems carry the
relevant range side conditions). -/
structure Appearance where
  character_id : CharID
  head : Option ℕ
  face : Option ℕ
  glasses : Option ℕ
  tops : Option ℕ
  bottoms : Option ℕ
  shoes : Option ℕ
  gloves : Option ℕ
  wing : Option ℕ
  club : Option ℕ
  skirt : Option ℕ
  hair_style : ℕ
  hair_color : ℕ
  eye_color : ℕ
  skin_color : ℕ
  face_paint : ℕ
  default_tops : Option ℕ
  default_bottoms : Option ℕ
  default_shoes : Option ℕ
  default_hair_color : ℕ
  default_eye_color : ℕ
  default_skin_color : ℕ
deriving DecidableEq, Repr

/-- The nine little-endian `u32` words of the 36-byte appearance wire record;
`w0` is the word at offset 0, `w8` the word at offset 0x20. -/
structure AppearanceWire where
  w0 : ℕ
  w1 : ℕ
  w2 : ℕ
  w3 : ℕ
  w4 : ℕ
  w5 : ℕ
  w6 : ℕ
  w7 : ℕ
  w8 : ℕ
deriving DecidableEq, Repr

/-- `impl DekuRead for Appearance` (`none` models the `DekuError` on an
unknown character sub-field). -/
def Appearance.decode (x : AppearanceWire) : Option Appearance := do
  -- Offset 0
  let character_id ← CharID.from_index ((x.w0 >>> 2) &&& 0x3F)
  let face_paint := (x.w0 >>> 8) &&& 0x3FF
  let head := unpack_optional ((x.w0 >>> 18) &&& 0x3FF)
  -- Offset 4
  let glasses := unpack_optional (x.w1 &&& 0x3FF)
  let tops := unpack_optional ((x.w1 >>> 10) &&& 0x3FF)
  let bottoms := unpack_optional ((x.w1 >>> 20) &&& 0x3FF)
  -- Offset 8
  let shoes := unpack_optional (x.w2 &&& 0x3FF)
  let gloves := unpack_optional ((x.w2 >>> 10) &&& 0x3FF)
  let wing := unpack_optional ((x.w2 >>> 20) &&& 0x3FF)
  -- Offset C
  let club := unpack_optional (x.w3 &&& 0x3FF)
  let face := unpack_optional ((x.w3 >>> 10) &&& 0x3FF)
  let skirt := unpack_optional ((x.w3 >>> 20) &&& 0x3FF)
  -- Offset 10 is read and discarded
  -- Offset 14
  let hair_style := (x.w5 >>> 10) &&& 0x3FF
  let hair_color := (x.w5 >>> 20) &&& 0x3FF
  -- Offset 18
  let eye_color := x.w6 &&& 0xFF
  let skin_color := (x.w6 >>> 8) &&& 0xFF
  let default_tops := unpack_optional ((x.w6 >>> 16) &&& 0x3FF)
  -- Offset 1C
  let default_bottoms := unpack_optional (x.w7 &&& 0x3FF)
  let default_shoes := unpack_optional ((x.w7 >>> 10) &&& 0x3FF)
  let default_hair_color := (x.w7 >>> 20) &&& 0x3FF
  -- Offset 20
  let default_eye_color := x.w8 &&& 0xFF
  let default_skin_color := (x.w8 >>> 8) &&& 0xFF
  some { character_id, head, face, glasses, tops, bottoms, shoes, gloves, wing,
         club, skirt, hair_style, hair_color, eye_color, skin_color, face_paint,
         default_tops, default_bottoms, default_shoes, default_hair_color,
         default_eye_color, default_skin_color }

/-- `impl DekuWrite for Appearance`.  The `% 2 ^ 32` on the two 20-bit shifts
models the wrapping `u32` shift (those are the only components whose shift can
exceed 32 bits for `u16` field values). -/
def Appearance.encode (a : Appearance) : Option AppearanceWire := do
  -- Offset 0
  let head ← pack_optional a.head
  let w0 := (a.character_id.to_index <<< 2) ||| (a.face_paint <<< 8) ||| (head <<< 18)
  -- Offset 4
  let glasses ← pack_optional a.glasses
  let tops ← pack_optional a.tops
  let bottoms ← pack_optional a.bottoms
  let w1 := glasses ||| (tops <<< 10) ||| (bottoms <<< 20)
  -- Offset 8
  let shoes ← pack_optional a.shoes
  let gloves ← pack_optional a.gloves
  let wing ← pack_optional a.wing
  let w2 := shoes ||| (gloves <<< 10) ||| (wing <<< 20)
  -- Offset C
  let club ← pack_optional a.club
  let face ← pack_optional a.face
  let skirt ← pack_optional a.skirt
  let w3 := club ||| (face <<< 10) ||| (skirt <<< 20)
  -- Offset 10 - unused
  let w4 := 0
  -- Offset 14
  let w5 := (a.hair_style <<< 10) ||| ((a.hair_color <<< 20) % 2 ^ 32)
  -- Offset 18
  let default_tops ← pack_optional a.default_tops
  let w6 := a.eye_color ||| (a.skin_color <<< 8) ||| (default_tops <<< 16)
  -- Offset 1C
  let default_bottoms ← pack_optional a.default_bottoms
  let default_shoes ← pack_optional a.default_shoes
  let w7 := default_bottoms ||| (default_shoes <<< 10) |||
      ((a.default_hair_color <<< 20) % 2 ^ 32)
  -- Offset 20
  let w8 := a.default_eye_color ||| (a.default_skin_color <<< 8)
  some { w0, w1, w2, w3, w4, w5, w6, w7, w8 }

/-- Every field of `a` is inside the range the encoder can represent:
optional items at most `0x3FE`, 10-bit colours at most `0x3FF`, 8-bit colours
at most `0xFF` (these are the §4.3 field range constraints). -/
def Appearance.fieldsInRange (a : Appearance) : Prop :=
  a.head.all (· ≤ 0x3FE) = true ∧ a.face.all (· ≤ 0x3FE) = true ∧
  a.glasses.all (· ≤ 0x3FE) = true ∧ a.tops.all (· ≤ 0x3FE) = true ∧
  a.bottoms.all (· ≤ 0x3FE) = true ∧ a.shoes.all (· ≤ 0x3FE) = true ∧
  a.gloves.all (· ≤ 0x3FE) = true ∧ a.wing.all (· ≤ 0x3FE) = true ∧
  a.club.all (· ≤ 0x3FE) = true ∧ a.skirt.all (· ≤ 0x3FE) = true ∧
  a.default_tops.all (· ≤ 0x3FE) = true ∧ a.default_bottoms.all (· ≤ 0x3FE) = true ∧
  a.default_shoes.all (· ≤ 0x3FE) = true ∧
  a.face_paint ≤ 0x3FF ∧ a.hair_style ≤ 0x3FF ∧ a.hair_color ≤ 0x3FF ∧
  a.eye_color ≤ 0xFF ∧ a.skin_color ≤ 0xFF ∧ a.default_hair_color ≤ 0x3FF ∧
  a.default_eye_color ≤ 0xFF ∧ a.default_skin_color ≤ 0xFF

/-- Every bit of `x` that the decoder ignores is zero: bits 0–1 and 28–31 of
word 0, bits 30–31 of words 1–3 and 7, all of word 4, bits 0–9 and 30–31 of
word 5, bits 26–31 of word 6 and bits 16–31 of word 8. -/
def AppearanceWire.canonical (x : AppearanceWire) : Prop :=
  x.w0 % 4 = 0 ∧ x.w0 < 2 ^ 28 ∧ x.w1 < 2 ^ 30 ∧ x.w2 < 2 ^ 30 ∧ x.w3 < 2 ^ 30 ∧
  x.w4 = 0 ∧ x.w5 % 2 ^ 10 = 0 ∧ x.w5 < 2 ^ 30 ∧ x.w6 < 2 ^ 26 ∧ x.w7 < 2 ^ 30 ∧
  x.w8 < 2 ^ 16

instance (a : Appearance) : Decidable a.fieldsInRange := by
  unfold Appearance.fieldsInRange
  infer_instance

instance (x : AppearanceWire) : Decidable x.canonical := by
  unfold AppearanceWire.canonical
  infer_instance

/-- A 36-byte wire value that the decoder accepts (character sub-field 1) but
whose word at offset 0x10 — which the decoder reads and discards — is nonzero. -/
def c4_wire : AppearanceWire :=
  { w0 := 4, w1 := 0, w2 := 0, w3 := 0, w4 := 1, w5 := 0, w6 := 0, w7 := 0, w8 := 0 }

/-- An in-range appearance struct (the default player look). -/
def c4_app : Appearance :=
  { character_id := .rusk, head := none, face := none, glasses := none, tops := none,
    bottoms := none, shoes := none, gloves := none, wing := none, club := none,
    skirt := none, hair_style := 0, hair_color := 0, eye_color := 0, skin_color := 0,
    face_paint := 0, default_tops := none, default_bottoms := none, default_shoes := none,
    default_hair_color := 0, default_eye_color := 0, default_skin_color := 0 }

/-- A canonical wire value (character sub-field 1, everything else zero). -/
def c4_canon_wire : AppearanceWire :=
  { w0 := 4, w1 := 0, w2 := 0, w3 := 0, w4 := 0, w5 := 0, w6 := 0, w7 := 0, w8 := 0 }

/-! ## The session/game actor (src/gs2/mod.rs, lobby_mgmt.rs, game_mgmt.rs)

Modelling notes:
* `CID` (`i32`) and `LobbyNum` / `RoomNum` (`i8`) are modelled as `Int`; the
  grouping logic depends on the signed sentinel `-1` for "no lobby"/"no room".
* `Player` keeps the fields the grouping logic reads (`cid`, `uid`, `mode`,
  `cur_lobby`, `cur_room`); the display name, account data, stat bitmask and
  the outbound channel handle are carried opaquely by the source and omitted.
* `Room` keeps the fields the handlers read; the course/rule/limit
  configuration scalars are carried opaquely by the source and omitted.
* The `conn_lookup` map (`BTreeMap<CID, usize>`, which the source keeps equal
  to "index in `conns` of the player with that CID") is modelled by searching
  `conns`; `Vec::binary_search_by_key` over a room list kept sorted with
  unique keys is modelled as a key search.
* Handler output is the new state plus the `(destination CID, packet)` pairs
  written, in order; reply pids are not modelled.  `err` is an `anyhow`
  `bail!` (the dispatch loop logs it; no packet is sent), `panic` is a failed
  `.unwrap()` / `.expect()` / slice index.
* The CID-generation loop may not terminate; it gets explicit fuel and `none`
  models divergence. -/

/-- `enum Mode` (src/packets/mod.rs). -/
inductive Mode where
  | none
  | main
  | vs
  | competition
  | quick
  | mode4
  | single
deriving DecidableEq, Repr

/-- The packets the modelled handlers emit; only the fields the claims
observe are carried (`ackEnterRoom` carries the `room_stat.room` sub-field,
which is the room number on success and the error code from
`Packet19::create_error` on failure). -/
inductive Packet where
  | ackIdpassG (cid : Int)
  | ordColorResult (cid : Int)
  | ackEnterLobby (num : Int)
  | sendUListL (cid : Int)
  | ackMakeRoom (num : Int)
  | ackEnterRoom (room : Int)
  | sendUList (cid : Int)
  | sendCRClub (cid : Int) (club : Int)
  | sendShot (cid : Int)
  | sendStopBallpos (cid : Int)
deriving DecidableEq, Repr

/-- `struct Player` (src/gs2/mod.rs). -/
structure Player where
  cid : Int
  uid : Int
  mode : Mode
  cur_lobby : Int
  cur_room : Int
deriving DecidableEq, Repr

/-- `struct Room` (src/gs2/lobby_mgmt.rs). -/
structure Room where
  room_num : Int
  members : List Int
  max_members : ℕ
  name : String
  password : Option String
  allow_spectators : Bool
  current_player : Int
deriving DecidableEq, Repr

/-- `struct Lobby` (src/gs2/lobby_mgmt.rs). -/
structure Lobby where
  name : String
  members : List Int
  max_members : ℕ
  rooms : List Room
deriving DecidableEq, Repr

/-- `struct Lobbies` (src/gs2/lobby_mgmt.rs). -/
structure Lobbies where
  vs_lobbies : List Lobby
  compe_lobbies : List Lobby
deriving DecidableEq, Repr

/-- `Lobbies::lobbies`. -/
def Lobbies.lobbiesFor (ls : Lobbies) (mode : Mode) : Option (List Lobby) :=
  match mode with
  | .vs => some ls.vs_lobbies
  | .competition => some ls.compe_lobbies
  | _ => none

/-- `Lobbies::lobby` (also standing in for `lobby_mut`): valid when
`num >= 0 && (num as usize) < lobbies.len()`. -/
def Lobbies.lobby (ls : Lobbies) (mode : Mode) (num : Int) : Option Lobby :=
  match ls.lobbiesFor mode with
  | Option.none => none
  | some lobbies => if 0 ≤ num then lobbies[num.toNat]? else none

/-- In-place mutation through a `lobby_mut` borrow. -/
def Lobbies.modifyLobby (ls : Lobbies) (mode : Mode) (num : Int) (f : Lobby → Lobby) :
    Lobbies :=
  if 0 ≤ num then
    match mode with
    | .vs => { ls with vs_lobbies := ls.vs_lobbies.modify f num.toNat }
    | .competition => { ls with compe_lobbies := ls.compe_lobbies.modify f num.toNat }
    | _ => ls
  else ls

/-- `Lobbies::room` (also standing in for `room_mut`): the
`binary_search_by_key` over the sorted room list, as a key search. -/
def Lobbies.room (ls : Lobbies) (mode : Mode) (lobby_num room_num : Int) : Option Room :=
  match ls.lobby mode lobby_num with
  | Option.none => none
  | some lobby => lobby.rooms.find? (fun r => r.room_num == room_num)

/-- In-place mutation through a `room_mut` borrow. -/
def Lobbies.modifyRoom (ls : Lobbies) (mode : Mode) (lobby_num room_num : Int)
    (f : Room → Room) : Lobbies :=
  ls.modifyLobby mode lobby_num (fun l =>
    { l with rooms := l.rooms.map (fun r => if r.room_num == room_num then f r else r) })

/-- `struct GameServer` (src/gs2/mod.rs); the shop/salon tables and the DB
handle play no part in the modelled handlers. -/
structure GameServer where
  next_cid : Int
  conns : List Player
  lobbies : Lobbies
deriving DecidableEq, Repr

/-- The `conn_lookup` map: index in `conns` of the player with this CID. -/
def GameServer.lookup (gs : GameServer) (cid : Int) : Option ℕ :=
  gs.conns.findIdx? (fun p => p.cid == cid)

/-- The CIDs of all registered sessions, in `conns` order. -/
def GameServer.cids (gs : GameServer) : List Int :=
  gs.conns.map Player.cid

/-- Outcome of a handler: `ok`/`err` mirror `Ok(())` and `bail!`, both with
the mutated state and written packets; `panic` is an `unwrap` failure. -/
inductive HRes where
  | ok (gs : GameServer) (sends : List (Int × Packet))
  | err (gs : GameServer) (sends : List (Int × Packet)) (msg : String)
  | panic
deriving DecidableEq, Repr

/-- State after a handler ran, if it did not panic. -/
def HRes.state? : HRes → Option GameServer
  | .ok gs _ => some gs
  | .err gs _ _ => some gs
  | .panic => none

/-- A `for` loop writing `pkt` to every CID of `targets` except `skip`,
resolving each through `conn_lookup.get(..).unwrap()` — `none` models that
unwrap panicking on an unregistered CID. -/
def GameServer.resolveSends (gs : GameServer) (targets : List Int) (skip : Int)
    (pkt : Packet) : Option (List (Int × Packet)) :=
  match targets with
  | [] => some []
  | cid :: rest =>
    if cid == skip then gs.resolveSends rest skip pkt
    else
      match gs.lookup cid with
      | Option.none => none
      | some _ => (gs.resolveSends rest skip pkt).map (fun s => (cid, pkt) :: s)

/-! ### CID generation and login (src/gs2/mod.rs) -/

/-- One `next_cid` update of `GameServer::generate_cid`:
`self.next_cid += 1; if self.next_cid > 999 { self.next_cid = 600; }`. -/
def generate_cid_step (next : Int) : Int :=
  if 999 < next + 1 then 600 else next + 1

/-- `GameServer::generate_cid`, with fuel: each iteration takes `cid`,
advances `next_cid`, and returns `(cid, next_cid)` once `cid` is not a key of
`conn_lookup`.  `none` models the loop running out of fuel — the Rust loop
has no exit besides finding a free CID. -/
def generate_cid_fuel : ℕ → Int → List Int → Option (Int × Int)
  | 0, _, _ => none
  | fuel + 1, next, used =>
    let cid := next
    let next' := generate_cid_step next
    if cid ∈ used then generate_cid_fuel fuel next' used
    else some (cid, next')

/-- The candidate CIDs `generate_cid` visits, in order, starting at `next`. -/
def cid_candidates : ℕ → Int → List Int
  | 0, _ => []
  | fuel + 1, next => next :: cid_candidates fuel (generate_cid_step next)

/-- The slice of the account snapshot that `handle_login` reads. -/
structure AccountInfo where
  uid : Int
deriving DecidableEq, Repr

/-- `enum LoginResult` with the two `AckIDPassResult` reasons the handler
produces. -/
inductive LoginResult where
  | success (cid : Int)
  | failIdError
  | failMultiLogin
deriving DecidableEq, Repr

/-- `GameServer::handle_login`.  The storage collaborator's answer is the
`auth` argument (`none` = authentication failed).  The overall `none` result
models divergence inside `generate_cid`. -/
def GameServer.handle_login (gs : GameServer) (fuel : ℕ) (auth : Option AccountInfo) :
    Option (GameServer × LoginResult × List (Int × Packet)) :=
  match auth with
  | Option.none => some (gs, .failIdError, [])
  | some account =>
    if gs.conns.any (fun conn => conn.uid == account.uid) then
      some (gs, .failMultiLogin, [])
    else
      match generate_cid_fuel fuel gs.next_cid gs.cids with
      | Option.none => none
      | some (cid, next') =>
        let player : Player :=
          { cid := cid, uid := account.uid, mode := .none, cur_lobby := -1, cur_room := -1 }
        some ({ gs with next_cid := next', conns := gs.conns ++ [player] },
          .success cid, [(cid, .ackIdpassG cid), (cid, .ordColorResult cid)])

/-! ### Lobby and room handlers (src/gs2/lobby_mgmt.rs) -/

/-- `GameServer::handle_enter_lobby`. -/
def GameServer.handle_enter_lobby (gs : GameServer) (who : ℕ) (num : Int) : HRes :=
  match gs.conns[who]? with
  | Option.none => .panic
  | some p =>
    if 0 ≤ p.cur_lobby then .err gs [] ("trying to join a lobby while already in a lobby")
    else
      match gs.lobbies.lobby p.mode num with
      | Option.none => .err gs [] ("invalid lobby")
      | some lobby =>
        if lobby.max_members ≤ lobby.members.length then
          .ok gs [(p.cid, .ackEnterLobby (-1))]
        else
          let lobbies := gs.lobbies.modifyLobby p.mode num
            (fun l => { l with members := l.members ++ [p.cid] })
          let gs' : GameServer :=
            { gs with lobbies := lobbies, conns := gs.conns.set who { p with cur_lobby := num } }
          match gs'.resolveSends (lobby.members ++ [p.cid]) p.cid (.sendUListL p.cid) with
          | Option.none => .panic
          | some sends => .ok gs' ((p.cid, .ackEnterLobby num) :: sends)

/-- `GameServer::eject_from_lobby`: removes the CID from its lobby member
list (a panic if it is not there), clears `cur_lobby`, and notifies the
remaining lobby members.  The room list is untouched. -/
def GameServer.eject_from_lobby (gs : GameServer) (who : ℕ) : HRes :=
  match gs.conns[who]? with
  | Option.none => .panic
  | some p =>
    match gs.lobbies.lobby p.mode p.cur_lobby with
    | Option.none => .err gs [] ("invalid lobby")
    | some lobby =>
      if p.cid ∈ lobby.members then
        let lobbies := gs.lobbies.modifyLobby p.mode p.cur_lobby
          (fun l => { l with members := l.members.erase p.cid })
        let gs' : GameServer :=
          { gs with lobbies := lobbies,
                    conns := gs.conns.set who { p with cur_lobby := -1 } }
        match gs'.resolveSends (lobby.members.erase p.cid) p.cid (.sendUListL p.cid) with
        | Option.none => .panic
        | some sends => .ok gs' sends
      else .panic

/-- The slice of the `REQ_MAKE_ROOM` payload (`Packet19`) that the handler
reads; the remaining `room_stat` configuration scalars are carried opaquely
by the source and omitted. -/
structure Packet19 where
  mode : Mode
  lobby : Int
  room_name : String
  room_password : String
  stat_flag : ℕ
  stat_member_max : ℕ
deriving DecidableEq, Repr

/-- `Room::new`. -/
def Room.new (room_num : Int) (data : Packet19) : Room :=
  { room_num := room_num
    members := []
    max_members := data.stat_member_max
    name := data.room_name
    password := if data.stat_flag &&& 4 ≠ 0 then some data.room_password else none
    allow_spectators := data.stat_flag &&& 2 ≠ 0
    current_player := -1 }

/-- The loop body of `Lobby::pick_free_room_num`. -/
def pick_free_room_num_go (candidate : Int) : List Room → Option Int
  | [] => some candidate
  | room :: rest =>
    if candidate < room.room_num then some candidate
    else if room.room_num == 127 then none
    else pick_free_room_num_go (room.room_num + 1) rest

/-- `Lobby::pick_free_room_num` (assumes the room list is sorted by number). -/
def Lobby.pick_free_room_num (l : Lobby) : Option Int :=
  pick_free_room_num_go 0 l.rooms

/-- `GameServer::handle_make_room`. -/
def GameServer.handle_make_room (gs : GameServer) (who : ℕ) (data : Packet19) : HRes :=
  match gs.conns[who]? with
  | Option.none => .panic
  | some p =>
    match gs.lobbies.lobby data.mode data.lobby with
    | Option.none => .err gs [] ("invalid lobby")
    | some lobby =>
      if p.mode ≠ data.mode then .err gs [] ("user is not in the mode")
      else if p.cur_lobby ≠ data.lobby then .err gs [] ("user is not in the lobby")
      else if 0 ≤ p.cur_room then .err gs [] ("user is already in a room")
      else
        match lobby.pick_free_room_num with
        | Option.none => .ok gs [(p.cid, .ackMakeRoom (-1))]
        | some room_num =>
          let room := Room.new room_num data
          let room := { room with members := room.members ++ [p.cid] }
          let lobbies := gs.lobbies.modifyLobby data.mode data.lobby
            (fun l => { l with
              rooms := (l.rooms ++ [room]).mergeSort (fun a b => a.room_num ≤ b.room_num) })
          .ok { gs with conns := gs.conns.set who { p with cur_room := room_num },
                        lobbies := lobbies }
            [(p.cid, .ackMakeRoom room_num)]

/-- `enum EnterRoomError` (the `Other` transparent variant cannot arise in
the modelled fragment). -/
inductive EnterRoomError where
  | alreadyInRoom
  | roomNotFound
  | roomIsFull
  | wrongPassword
deriving DecidableEq, Repr

/-- Outcome of `_enter_room_internal`. -/
inductive ERes where
  | ok (gs : GameServer) (sends : List (Int × Packet))
  | fail (e : EnterRoomError)
  | panic
deriving DecidableEq, Repr

/-- `GameServer::_enter_room_internal`.  Note the source guards with
`self.conns[who].cur_room > 0` — strictly greater — so room number 0 does not
trip the `AlreadyInRoom` check. -/
def GameServer.enter_room_internal (gs : GameServer) (who : ℕ) (room_num : Int)
    (password : String) : ERes :=
  match gs.conns[who]? with
  | Option.none => .panic
  | some p =>
    if 0 < p.cur_room then .fail .alreadyInRoom
    else
      match gs.lobbies.room p.mode p.cur_lobby room_num with
      | Option.none => .fail .roomNotFound
      | some room =>
        if room.password.any (fun pw => password ≠ pw) then .fail .wrongPassword
        else if room.max_members ≤ room.members.length then .fail .roomIsFull
        else
          let lobbies := gs.lobbies.modifyRoom p.mode p.cur_lobby room_num
            (fun r => { r with members := r.members ++ [p.cid] })
          let gs' : GameServer :=
            { gs with lobbies := lobbies,
                      conns := gs.conns.set who { p with cur_room := room_num } }
          match gs'.resolveSends (room.members ++ [p.cid]) p.cid (.sendUList p.cid) with
          | Option.none => .panic
          | some sends => .ok gs' ((p.cid, .ackEnterRoom room.room_num) :: sends)

/-- `GameServer::handle_enter_room`: on an internal failure the requester is
sent `ACK_ENTER_ROOM` carrying `Packet19::create_error` with code `-3` for a
wrong password and `-1` otherwise. -/
def GameServer.handle_enter_room (gs : GameServer) (who : ℕ) (room_num : Int)
    (password : String) : HRes :=
  match gs.enter_room_internal who room_num password with
  | .ok gs' sends => .ok gs' sends
  | .panic => .panic
  | .fail e =>
    match gs.conns[who]? with
    | Option.none => .panic
    | some p =>
      let code : Int := if e = .wrongPassword then -3 else -1
      .ok gs [(p.cid, .ackEnterRoom code)]

/-! ### In-room relays (src/gs2/game_mgmt.rs) -/

/-- `GameServer::send_packet_to_roommates`. -/
def GameServer.send_packet_to_roommates (gs : GameServer) (who : ℕ) (packet : Packet) :
    HRes :=
  match gs.conns[who]? with
  | Option.none => .panic
  | some p =>
    match gs.lobbies.room p.mode p.cur_lobby p.cur_room with
    | Option.none => .err gs [] ("user is not in a room")
    | some room =>
      match gs.resolveSends room.members p.cid packet with
      | Option.none => .panic
      | some sends => .ok gs sends

/-- `GameServer::handle_shot_club` (the club payload is an `i8`). -/
def GameServer.handle_shot_club (gs : GameServer) (who : ℕ) (club : Int) : HRes :=
  match gs.conns[who]? with
  | Option.none => .panic
  | some p => gs.send_packet_to_roommates who (.sendCRClub p.cid club)

/-- `GameServer::handle_shot_info`: records the sender as the room's
`current_player`, then relays `SEND_SHOT` (whose numeric shot parameters are
not modelled) to the other room members. -/
def GameServer.handle_shot_info (gs : GameServer) (who : ℕ) : HRes :=
  match gs.conns[who]? with
  | Option.none => .panic
  | some p =>
    let gs' :=
      match gs.lobbies.room p.mode p.cur_lobby p.cur_room with
      | some _ =>
        { gs with lobbies := (gs.lobbies.modifyRoom p.mode p.cur_lobby p.cur_room
            (fun r => { r with current_player := p.cid })) }
      | Option.none => gs
    gs'.send_packet_to_roommates who (.sendShot p.cid)

/-- `GameServer::handle_stop_ballpos`: if the sender's room resolves and the
sender is not the room's `current_player`, the message is dropped (`Ok(())`,
no packet, no state change); otherwise `SEND_STOP_BALLPOS` goes to the sender
itself and then to its roommates. -/
def GameServer.handle_stop_ballpos (gs : GameServer) (who : ℕ) : HRes :=
  match gs.conns[who]? with
  | Option.none => .panic
  | some p =>
    let reject :=
      match gs.lobbies.room p.mode p.cur_lobby p.cur_room with
      | some room => p.cid != room.current_player
      | Option.none => false
    if reject then .ok gs []
    else
      match gs.send_packet_to_roommates who (.sendStopBallpos p.cid) with
      | .ok gs' sends => .ok gs' ((p.cid, .sendStopBallpos p.cid) :: sends)
      | .err gs' sends msg => .err gs' ((p.cid, .sendStopBallpos p.cid) :: sends) msg
      | .panic => .panic

/-! ### Logout (src/gs2/mod.rs) -/

/-- `Vec::swap_remove(i)`: remove index `i`, moving the last element into its
place (callers only use in-bounds indices). -/
def swapRemove {α : Type} (l : List α) (i : ℕ) : List α :=
  match l.getLast? with
  | Option.none => l
  | some last => (l.set i last).dropLast

/-- `GameServer::remove_player`: drop the CID from `conn_lookup`, eject from
the lobby when `cur_lobby >= 0` (propagating its failure like the `?`
operator), then `swap_remove` the player.  Nothing removes the CID from any
room member list. -/
def GameServer.remove_player (gs : GameServer) (cid : Int) : HRes :=
  match gs.lookup cid with
  | Option.none => .ok gs []
  | some who =>
    match gs.conns[who]? with
    | Option.none => .panic
    | some p =>
      let step1 : HRes := if 0 ≤ p.cur_lobby then gs.eject_from_lobby who else .ok gs []
      match step1 with
      | .panic => .panic
      | .err gs' sends msg => .err gs' sends msg
      | .ok gs' sends => .ok { gs' with conns := swapRemove gs'.conns who } sends

/-! ### Initial state and reachability -/

/-- `create_initial_lobbies` (src/gs2/lobby_mgmt.rs). -/
def create_initial_lobbies : Lobbies :=
  { vs_lobbies := [{ name := "Foo", members := [], max_members := 10, rooms := [] }],
    compe_lobbies := [{ name := "Bar", members := [], max_members := 10, rooms := [] }] }

/-- The state `GameServer::start` begins with. -/
def initial_server : GameServer :=
  { next_cid := 600, conns := [], lobbies := create_initial_lobbies }

/-- Server states reachable from start through the modelled mutating
handlers (panicking runs produce no successor state). -/
inductive Reachable : GameServer → Prop where
  | init : Reachable initial_server
  | login (gs : GameServer) (fuel : ℕ) (auth : Option AccountInfo) (gs' : GameServer)
      (r : LoginResult) (sends : List (Int × Packet)) :
      Reachable gs → gs.handle_login fuel auth = some (gs', r, sends) → Reachable gs'
  | logout (gs : GameServer) (cid : Int) (gs' : GameServer) :
      Reachable gs → (gs.remove_player cid).state? = some gs' → Reachable gs'
  | enterLobby (gs : GameServer) (who : ℕ) (num : Int) (gs' : GameServer) :
      Reachable gs → (gs.handle_enter_lobby who num).state? = some gs' → Reachable gs'
  | makeRoom (gs : GameServer) (who : ℕ) (data : Packet19) (gs' : GameServer) :
      Reachable gs → (gs.handle_make_room who data).state? = some gs' → Reachable gs'
  | enterRoom (gs : GameServer) (who : ℕ) (room_num : Int) (password : String)
      (gs' : GameServer) :
      Reachable gs → (gs.handle_enter_room who room_num password).state? = some gs' →
      Reachable gs'
  | shotClub (gs : GameServer) (who : ℕ) (club : Int) (gs' : GameServer) :
      Reachable gs → (gs.handle_shot_club who club).state? = some gs' → Reachable gs'
  | shotInfo (gs : GameServer) (who : ℕ) (gs' : GameServer) :
      Reachable gs → (gs.handle_shot_info who).state? = some gs' → Reachable gs'
  | stopBallpos (gs : GameServer) (who : ℕ) (gs' : GameServer) :
      Reachable gs → (gs.handle_stop_ballpos who).state? = some gs' → Reachable gs'

/-- A one-member room with the given number. -/
def c5_room (i : Int) : Room :=
  { room_num := i, members := [600], max_members := 4, name := "", password := none,
    allow_spectators := true, current_player := -1 }

/-- A lobby whose existing rooms are numbered 0, 1 and 3. -/
def c5_lobby013 : Lobby :=
  { name := "Foo", members := [600], max_members := 10,
    rooms := [c5_room 0, c5_room 1, c5_room 3] }

/-- A lobby whose 128 rooms use every number of `0..=127`. -/
def c5_full_lobby : Lobby :=
  { name := "Foo", members := [600], max_members := 10,
    rooms := (List.range 128).map (fun i => c5_room (Int.ofNat i)) }

def c5_player : Player :=
  { cid := 600, uid := 1, mode := .vs, cur_lobby := 0, cur_room := -1 }

def c5_full_gs : GameServer :=
  { next_cid := 601, conns := [c5_player],
    lobbies := { vs_lobbies := [c5_full_lobby],
                 compe_lobbies := [{ name := "Bar", members := [], max_members := 10,
                                     rooms := [] }] } }

def c5_data : Packet19 :=
  { mode := .vs, lobby := 0, room_name := "", room_password := "", stat_flag := 0,
    stat_member_max := 4 }

/-! ## Claim C1: logout eviction from room and lobby -/

def c1_room : Room :=
  { room_num := 0, members := [600, 601], max_members := 4, name := "", password := none,
    allow_spectators := false, current_player := -1 }

/-- Two sessions, both in VS lobby 0 and both members of its room 0. -/
def c1_gs : GameServer :=
  { next_cid := 602,
    conns := [{ cid := 600, uid := 1, mode := .vs, cur_lobby := 0, cur_room := 0 },
              { cid := 601, uid := 2, mode := .vs, cur_lobby := 0, cur_room := 0 }],
    lobbies := { vs_lobbies := [{ name := "Foo", members := [600, 601], max_members := 10,
                                  rooms := [c1_room] }],
                 compe_lobbies := [{ name := "Bar", members := [], max_members := 10,
                                     rooms := [] }] } }

/-- The state `remove_player c1_gs 601` actually produces: session 601 is gone
from the registry and the lobby, but still listed in room 0. -/
def c1_gs_after : GameServer :=
  { next_cid := 602,
    conns := [{ cid := 600, uid := 1, mode := .vs, cur_lobby := 0, cur_room := 0 }],
    lobbies := { vs_lobbies := [{ name := "Foo", members := [600], max_members := 10,
                                  rooms := [c1_room] }],
                 compe_lobbies := [{ name := "Bar", members := [], max_members := 10,
                                     rooms := [] }] } }

/-! ## Claim C2: enter-room rejection for sessions already in a room -/

/-- Room number `i` of the C2 scenario, with the given member list. -/
def c2_room (i : Int) (ms : List Int) : Room :=
  { room_num := i, members := ms, max_members := 2, name := "", password := none,
    allow_spectators := false, current_player := -1 }

/-- One session that is a member of room 0 (its `cur_room` field is `0`), with
a second, empty room 1 in the same lobby. -/
def c2_gs : GameServer :=
  { next_cid := 601,
    conns := [{ cid := 600, uid := 1, mode := .vs, cur_lobby := 0, cur_room := 0 }],
    lobbies := { vs_lobbies := [{ name := "Foo", members := [600], max_members := 10,
                                  rooms := [c2_room 0 [600], c2_room 1 []] }],
                 compe_lobbies := [{ name := "Bar", members := [], max_members := 10,
                                     rooms := [] }] } }

/-- What the enter-room request from the room-0 member actually produces:
the session joins room 1 as well. -/
def c2_gs_after : GameServer :=
  { next_cid := 601,
    conns := [{ cid := 600, uid := 1, mode := .vs, cur_lobby := 0, cur_room := 1 }],
    lobbies := { vs_lobbies := [{ name := "Foo", members := [600], max_members := 10,
                                  rooms := [c2_room 0 [600], c2_room 1 [600]] }],
                 compe_lobbies := [{ name := "Bar", members := [], max_members := 10,
                                     rooms := [] }] } }

/-- The same session with `cur_room = 1` instead. -/
def c2b_gs : GameServer :=
  { c2_gs with conns := [{ cid := 600, uid := 1, mode := .vs, cur_lobby := 0, cur_room := 1 }] }

/-! ## Claim C6: coded error replies versus silently dropped requests -/

def c6_data : Packet19 :=
  { mode := .vs, lobby := 0, room_name := "", room_password := "", stat_flag := 0,
    stat_member_max := 4 }

def c6_player : Player :=
  { cid := 600, uid := 1, mode := .vs, cur_lobby := 0, cur_room := 0 }

def c6_lobby : Lobby :=
  { name := "Foo", members := [600], max_members := 10, rooms := [c2_room 0 [600]] }

/-- A session in VS lobby 0 that is already a member of room 0. -/
def c6_gs : GameServer :=
  { next_cid := 601,
    conns := [c6_player],
    lobbies := { vs_lobbies := [c6_lobby],
                 compe_lobbies := [{ name := "Bar", members := [], max_members := 10,
                                     rooms := [] }] } }

def c6_full_player : Player :=
  { cid := 600, uid := 1, mode := .vs, cur_lobby := -1, cur_room := -1 }

def c6_full_lobby : Lobby :=
  { name := "Foo", members := [700, 701, 702, 703, 704, 705, 706, 707, 708, 709],
    max_members := 10, rooms := [] }

/-- A lobby-full scenario: the requester is outside, ten members fill the
lobby. -/
def c6_full_gs : GameServer :=
  { next_cid := 601,
    conns := [c6_full_player],
    lobbies := { vs_lobbies := [c6_full_lobby],
                 compe_lobbies := [{ name := "Bar", members := [], max_members := 10,
                                     rooms := [] }] } }

def c6_mode_player : Player :=
  { cid := 600, uid := 1, mode := .main, cur_lobby := 0, cur_room := -1 }

/-- A session in the wrong mode (`Main`) for the VS lobby it addresses. -/
def c6_mode_gs : GameServer :=
  { c6_gs with conns := [c6_mode_player] }

def c6_nolobby_player : Player :=
  { cid := 600, uid := 1, mode := .vs, cur_lobby := -1, cur_room := -1 }

/-- A session in the right mode but not in the lobby it addresses. -/
def c6_nolobby_gs : GameServer :=
  { c6_gs with conns := [c6_nolobby_player] }

def c6_pw_player : Player :=
  { cid := 600, uid := 1, mode := .vs, cur_lobby := 0, cur_room := -1 }

/-- A password-protected room and a session supplying the wrong password. -/
def c6_pw_gs : GameServer :=
  { next_cid := 601,
    conns := [c6_pw_player],
    lobbies := { vs_lobbies := [{ name := "Foo", members := [600], max_members := 10,
                                  rooms := [{ room_num := 0, members := [], max_members := 2,
                                              name := "", password := some "abc",
                                              allow_spectators := false,
                                              current_player := -1 }] }],
                 compe_lobbies := [{ name := "Bar", members := [], max_members := 10,
                                     rooms := [] }] } }

def c7_room : Room :=
  { room_num := 0, members := [600, 601], max_members := 4, name := "", password := none,
    allow_spectators := false, current_player := -1 }

def c7_player0 : Player :=
  { cid := 600, uid := 1, mode := .vs, cur_lobby := 0, cur_room := 0 }

def c7_player1 : Player :=
  { cid := 601, uid := 2, mode := .vs, cur_lobby := 0, cur_room := 0 }

/-- Two sessions in VS lobby 0, both members of room 0; nobody holds shot
authority yet. -/
def c7_gs : GameServer :=
  { next_cid := 602, conns := [c7_player0, c7_player1],
    lobbies := { vs_lobbies := [{ name := "Foo", members := [600, 601], max_members := 10,
                                  rooms := [c7_room] }],
                 compe_lobbies := [{ name := "Bar", members := [], max_members := 10,
                                     rooms := [] }] } }

/-- `c7_gs` after session 600's shot-info message. -/
def c7_gs_shot : GameServer :=
  { next_cid := 602, conns := [c7_player0, c7_player1],
    lobbies := { vs_lobbies := [{ name := "Foo", members := [600, 601], max_members := 10,
                                  rooms := [{ c7_room with current_player := 600 }] }],
                 compe_lobbies := [{ name := "Bar", members := [], max_members := 10,
                                     rooms := [] }] } }

/-- Structural invariant of the session registry. -/
def RegistryInv (gs : GameServer) : Prop :=
  gs.cids.Nodup ∧ (∀ c ∈ gs.cids, 600 ≤ c ∧ c ≤ 999) ∧
  600 ≤ gs.next_cid ∧ gs.next_cid ≤ 999

def c8_account1 : AccountInfo := { uid := 1 }

def c8_player1 : Player :=
  { cid := 600, uid := 1, mode := .none, cur_lobby := -1, cur_room := -1 }

/-- The state after one successful login (CID 600 allocated). -/
def c8_gs1 : GameServer :=
  { next_cid := 601, conns := [c8_player1], lobbies := create_initial_lobbies }

/-- The k-th candidate of the wrap-around sequence starting at `next`. -/
def wrapCid (next : Int) (k : ℕ) : Int := 600 + (next - 600 + k) % 400

def c10_account : AccountInfo := { uid := 5000 }

/-- Four hundred sessions holding every CID of the pool. -/
def c10_full_conns : List Player :=
  (List.range 400).map (fun i =>
    { cid := 600 + (i : Int), uid := (i : Int), mode := .none, cur_lobby := -1,
      cur_room := -1 })

def c10_full_gs : GameServer :=
  { next_cid := 600, conns := c10_full_conns, lobbies := create_initial_lobbies }

theorem CharID.from_to_index (c : CharID) : CharID.from_index c.to_index = some c := by
  cases c <;> rfl

theorem CharID.to_from_index (i : ℕ) (c : CharID) (h : CharID.from_index i = some c) :
    c.to_index = i := by
  unfold CharID.from_index at h
  rcases i with _ | _ | _ | _ | _ | _ | _ | _ | i <;>
    simp only [Option.some.injEq, reduceCtorEq] at h <;> subst h <;> rfl

theorem CharID.to_index_le (c : CharID) : 1 ≤ c.to_index ∧ c.to_index ≤ 7 := by
  cases c <;> decide

theorem pack_unpack_optional (o : Option ℕ) (h : ∀ v, o = some v → v ≤ 0x3FE) :
    ∃ w, pack_optional o = some w ∧ w ≤ 0x3FF ∧ unpack_optional w = o := by
  cases o with
  | none => exact ⟨0, rfl, by decide, rfl⟩
  | some v =>
    have hv : v ≤ 0x3FE := h v rfl
    refine ⟨v + 1, ?_, by omega, ?_⟩
    · simp [pack_optional, hv]
    · simp [unpack_optional]
      omega

theorem unpack_pack_optional (w : ℕ) (hw : w ≤ 0x3FF) :
    pack_optional (unpack_optional w) = some w := by
  by_cases h : 1 ≤ w ∧ w ≤ 0x3FF
  · have h1 : unpack_optional w = some (w - 1) := by simp [unpack_optional, h]
    have h2 : w - 1 ≤ 0x3FE := by omega
    rw [h1]
    simp [pack_optional, h2]
    omega
  · have h0 : w = 0 := by omega
    subst h0
    rfl

/-! ## Bit-arithmetic helpers for the packed codecs -/

theorem lor_shl_eq_add (a b k : ℕ) (h : a < 2 ^ k) : a ||| b <<< k = a + b * 2 ^ k := by
  rw [Nat.shiftLeft_eq, mul_comm b, Nat.lor_comm, ← Nat.mul_add_lt_is_or h b]
  omega

theorem word3_eq (a b c p q : ℕ) (hp : a < 2 ^ p) (hq : a + b * 2 ^ p < 2 ^ q) :
    a ||| b <<< p ||| c <<< q = a + b * 2 ^ p + c * 2 ^ q := by
  rw [lor_shl_eq_add a b p hp, lor_shl_eq_add _ c q hq]

theorem and_1023_eq_mod (x : ℕ) : x &&& 1023 = x % 1024 :=
  Nat.and_pow_two_sub_one_eq_mod x 10

theorem and_255_eq_mod (x : ℕ) : x &&& 255 = x % 256 :=
  Nat.and_pow_two_sub_one_eq_mod x 8

theorem and_63_eq_mod (x : ℕ) : x &&& 63 = x % 64 :=
  Nat.and_pow_two_sub_one_eq_mod x 6

/-! ## Claim C3: the 10-bit optional-value sub-field codec -/

/-- C3, counterexample: the claim says decoding `0x3FF` yields absent, that
encoding any present value greater than `0x3FD` is a range error, and that the
encoder never outputs `0x3FF`.  On the code, `0x3FF` decodes to `some 0x3FE`,
and `0x3FE` (which is greater than `0x3FD`) encodes successfully — to the word
`0x3FF`. -/
theorem c3_optional_counterexample :
    unpack_optional 0x3FF = some 0x3FE ∧ ¬ unpack_optional 0x3FF = none ∧
    pack_optional (some 0x3FE) = some 0x3FF ∧ ¬ pack_optional (some 0x3FE) = none := by
  decide

/-- C3, amended: decoding `0` yields absent, decoding `v ∈ 1..=0x3FF` yields
`v - 1` (so the maximum representable present value is `0x3FE`, and the word
`0x3FF` decodes to a present `0x3FE`), larger inputs decode to absent; encoding
a present value `u ≤ 0x3FE` succeeds and outputs `u + 1` (so encoding `0x3FE`
outputs `0x3FF`), and encoding any present value above `0x3FE` is a range
error. -/
theorem c3_optional_codec (v u : ℕ) :
    unpack_optional 0 = none ∧
    (1 ≤ v → v ≤ 0x3FF → unpack_optional v = some (v - 1)) ∧
    (0x3FF < v → unpack_optional v = none) ∧
    (u ≤ 0x3FE → pack_optional (some u) = some (u + 1)) ∧
    (0x3FE < u → pack_optional (some u) = none) ∧
    pack_optional none = some 0 := by
  refine ⟨rfl, ?_, ?_, ?_, ?_, rfl⟩
  · intro h1 h2
    simp [unpack_optional]
    omega
  · intro h
    simp [unpack_optional]
    omega
  · intro h
    simp [pack_optional, h]
  · intro h
    simp [pack_optional]
    omega

/-- C3 witness at `v = 0x3FF`, `u = 0x3FE`. -/
theorem c3_optional_codec_witness :
    unpack_optional 0 = none ∧
    (1 ≤ 0x3FF → 0x3FF ≤ 0x3FF → unpack_optional 0x3FF = some (0x3FF - 1)) ∧
    (0x3FF < 0x3FF → unpack_optional 0x3FF = none) ∧
    (0x3FE ≤ 0x3FE → pack_optional (some 0x3FE) = some (0x3FE + 1)) ∧
    (0x3FE < 0x3FE → pack_optional (some 0x3FE) = none) ∧
    pack_optional none = some 0 :=
  c3_optional_codec 0x3FF 0x3FE

/-! ## Claim C9: the counted-item packing -/

/-- C9, counterexample: the claim quantifies over every item identifier, but
`CountedItem::new` computes `(item.0 << 10) | count` on `u32`, so the top ten
bits of the identifier are lost.  For the identifier `0x400000 = 2 ^ 22` and
count `5`, the packed word is `5` and reading the item back yields `0`. -/
theorem c9_counted_counterexample :
    CountedItem.new ⟨0x400000⟩ 5 = some ⟨5⟩ ∧
    (CountedItem.new ⟨0x400000⟩ 5).map CountedItem.item = some ⟨0⟩ ∧
    (⟨0⟩ : Item) ≠ ⟨0x400000⟩ := by
  decide

/-- C9, amended: for every count `c ∈ 0..=0x3FF` the count round-trips for
every identifier, and the identifier round-trips whenever it fits in the 22
bits available to it (`i.val < 2 ^ 22`), which holds for every identifier the
`Item::new` constructor can produce. -/
theorem c9_counted_item (i : Item) (c : ℕ) (hc : c ≤ 0x3FF) :
    (CountedItem.new i c).map CountedItem.count = some c ∧
    (i.val < 2 ^ 22 → (CountedItem.new i c).map CountedItem.item = some i) := by
  have hkey : (i.val <<< 10) % 2 ^ 32 = i.val % 2 ^ 22 * 2 ^ 10 := by
    rw [Nat.shiftLeft_eq, show (2 ^ 32 : ℕ) = 2 ^ 22 * 2 ^ 10 by norm_num,
      Nat.mul_mod_mul_right]
  have hor : (i.val <<< 10) % 2 ^ 32 ||| c = 2 ^ 10 * (i.val % 2 ^ 22) + c := by
    rw [hkey, mul_comm, Nat.mul_add_lt_is_or (by omega) (i.val % 2 ^ 22)]
  have hnew : CountedItem.new i c =
      some ⟨2 ^ 10 * (i.val % 2 ^ 22) + c⟩ := by
    unfold CountedItem.new
    rw [if_pos hc, hor]
  constructor
  · rw [hnew]
    simp [CountedItem.count, and_1023_eq_mod]
    omega
  · intro hlt
    rw [hnew]
    obtain ⟨iv⟩ := i
    clear hkey hor hnew
    have hlt2 : iv < 2 ^ 22 := hlt
    simp [CountedItem.item, Nat.shiftRight_eq_div_pow, Item.mk.injEq]
    omega

/-- C9 witness at the maximal constructor-producible identifier `0xFFFFF` and
count `0x3FF`. -/
theorem c9_counted_item_witness :
    (CountedItem.new ⟨0xFFFFF⟩ 0x3FF).map CountedItem.count = some 0x3FF ∧
    ((0xFFFFF : ℕ) < 2 ^ 22 →
      (CountedItem.new ⟨0xFFFFF⟩ 0x3FF).map CountedItem.item = some ⟨0xFFFFF⟩) :=
  c9_counted_item ⟨0xFFFFF⟩ 0x3FF (by decide)

/-! ## Claim C4: appearance record round-trips -/

theorem lor_mul_eq_add (a b k : ℕ) (h : a < 2 ^ k) : a ||| b * 2 ^ k = a + b * 2 ^ k := by
  have h2 := lor_shl_eq_add a b k h
  rwa [Nat.shiftLeft_eq] at h2

theorem optionAll_le (o : Option ℕ) (b : ℕ) (h : o.all (· ≤ b) = true) :
    ∀ v, o = some v → v ≤ b := by
  cases o <;> simp_all [Option.all]

/-! Field-extraction lemmas for the packed words. -/

theorem mod32_shl20_drop (v : ℕ) (hv : v ≤ 0x3FF) : (v <<< 20) % 2 ^ 32 = v <<< 20 := by
  apply Nat.mod_eq_of_lt
  rw [Nat.shiftLeft_eq]
  omega

theorem extract_word0 (t f h : ℕ) (ht : t ≤ 0x3F) (hf : f ≤ 0x3FF) (hh : h ≤ 0x3FF) :
    ((t <<< 2 ||| f <<< 8 ||| h <<< 18) >>> 2) &&& 0x3F = t ∧
    ((t <<< 2 ||| f <<< 8 ||| h <<< 18) >>> 8) &&& 0x3FF = f ∧
    ((t <<< 2 ||| f <<< 8 ||| h <<< 18) >>> 18) &&& 0x3FF = h := by
  have hw := word3_eq (t <<< 2) f h 8 18
    (by rw [Nat.shiftLeft_eq]; omega) (by rw [Nat.shiftLeft_eq]; omega)
  rw [hw, Nat.shiftLeft_eq]
  refine ⟨?_, ?_, ?_⟩ <;>
    rw [Nat.shiftRight_eq_div_pow] <;>
    first
      | (rw [and_63_eq_mod]; omega)
      | (rw [and_1023_eq_mod]; omega)

theorem extract_word3_10 (a b c : ℕ) (ha : a ≤ 0x3FF) (hb : b ≤ 0x3FF) (hc : c ≤ 0x3FF) :
    (a ||| b <<< 10 ||| c <<< 20) &&& 0x3FF = a ∧
    ((a ||| b <<< 10 ||| c <<< 20) >>> 10) &&& 0x3FF = b ∧
    ((a ||| b <<< 10 ||| c <<< 20) >>> 20) &&& 0x3FF = c := by
  have hw := word3_eq a b c 10 20 (by omega) (by omega)
  rw [hw]
  refine ⟨?_, ?_, ?_⟩
  · rw [and_1023_eq_mod]; omega
  · rw [Nat.shiftRight_eq_div_pow, and_1023_eq_mod]; omega
  · rw [Nat.shiftRight_eq_div_pow, and_1023_eq_mod]; omega

theorem extract_word5 (b c : ℕ) (hb : b ≤ 0x3FF) (hc : c ≤ 0x3FF) :
    ((b <<< 10 ||| (c <<< 20) % 2 ^ 32) >>> 10) &&& 0x3FF = b ∧
    ((b <<< 10 ||| (c <<< 20) % 2 ^ 32) >>> 20) &&& 0x3FF = c := by
  rw [mod32_shl20_drop c hc,
    lor_shl_eq_add (b <<< 10) c 20 (by rw [Nat.shiftLeft_eq]; omega), Nat.shiftLeft_eq]
  constructor
  · rw [Nat.shiftRight_eq_div_pow, and_1023_eq_mod]; omega
  · rw [Nat.shiftRight_eq_div_pow, and_1023_eq_mod]; omega

theorem extract_word6 (e s d : ℕ) (he : e ≤ 0xFF) (hs : s ≤ 0xFF) (hd : d ≤ 0x3FF) :
    (e ||| s <<< 8 ||| d <<< 16) &&& 0xFF = e ∧
    ((e ||| s <<< 8 ||| d <<< 16) >>> 8) &&& 0xFF = s ∧
    ((e ||| s <<< 8 ||| d <<< 16) >>> 16) &&& 0x3FF = d := by
  have hw := word3_eq e s d 8 16 (by omega) (by omega)
  rw [hw]
  refine ⟨?_, ?_, ?_⟩
  · rw [and_255_eq_mod]; omega
  · rw [Nat.shiftRight_eq_div_pow, and_255_eq_mod]; omega
  · rw [Nat.shiftRight_eq_div_pow, and_1023_eq_mod]; omega

theorem extract_word7 (a b c : ℕ) (ha : a ≤ 0x3FF) (hb : b ≤ 0x3FF) (hc : c ≤ 0x3FF) :
    (a ||| b <<< 10 ||| (c <<< 20) % 2 ^ 32) &&& 0x3FF = a ∧
    ((a ||| b <<< 10 ||| (c <<< 20) % 2 ^ 32) >>> 10) &&& 0x3FF = b ∧
    ((a ||| b <<< 10 ||| (c <<< 20) % 2 ^ 32) >>> 20) &&& 0x3FF = c := by
  rw [mod32_shl20_drop c hc]
  exact extract_word3_10 a b c ha hb hc

theorem extract_word8 (e s : ℕ) (he : e ≤ 0xFF) (hs : s ≤ 0xFF) :
    (e ||| s <<< 8) &&& 0xFF = e ∧ ((e ||| s <<< 8) >>> 8) &&& 0xFF = s := by
  rw [lor_shl_eq_add e s 8 (by omega)]
  constructor
  · rw [and_255_eq_mod]; omega
  · rw [Nat.shiftRight_eq_div_pow, and_255_eq_mod]; omega

/-! Word-rebuilding lemmas: re-encoding the extracted fields reproduces any
word whose ignored bits are zero. -/

theorem rebuild_word0 (w t : ℕ) (hmod : w % 4 = 0) (hlt : w < 2 ^ 28)
    (ht : t = (w >>> 2) &&& 0x3F) :
    t <<< 2 ||| ((w >>> 8) &&& 0x3FF) <<< 8 ||| ((w >>> 18) &&& 0x3FF) <<< 18 = w := by
  subst ht
  rw [Nat.shiftRight_eq_div_pow, Nat.shiftRight_eq_div_pow, Nat.shiftRight_eq_div_pow,
    and_63_eq_mod, and_1023_eq_mod, and_1023_eq_mod,
    word3_eq _ _ _ 8 18 (by rw [Nat.shiftLeft_eq]; omega) (by rw [Nat.shiftLeft_eq]; omega),
    Nat.shiftLeft_eq]
  omega

theorem rebuild_word3_10 (w : ℕ) (hlt : w < 2 ^ 30) :
    (w &&& 0x3FF) ||| ((w >>> 10) &&& 0x3FF) <<< 10 ||| ((w >>> 20) &&& 0x3FF) <<< 20 = w := by
  rw [Nat.shiftRight_eq_div_pow, Nat.shiftRight_eq_div_pow,
    and_1023_eq_mod, and_1023_eq_mod, and_1023_eq_mod,
    word3_eq _ _ _ 10 20 (by omega) (by omega)]
  omega

theorem rebuild_word5 (w : ℕ) (hmod : w % 2 ^ 10 = 0) (hlt : w < 2 ^ 30) :
    ((w >>> 10) &&& 0x3FF) <<< 10 ||| ((((w >>> 20) &&& 0x3FF) <<< 20) % 2 ^ 32) = w := by
  rw [Nat.shiftRight_eq_div_pow, Nat.shiftRight_eq_div_pow, and_1023_eq_mod, and_1023_eq_mod,
    mod32_shl20_drop _ (by omega),
    lor_shl_eq_add _ _ 20 (by rw [Nat.shiftLeft_eq]; omega), Nat.shiftLeft_eq]
  omega

theorem rebuild_word6 (w : ℕ) (hlt : w < 2 ^ 26) :
    (w &&& 0xFF) ||| ((w >>> 8) &&& 0xFF) <<< 8 ||| ((w >>> 16) &&& 0x3FF) <<< 16 = w := by
  rw [Nat.shiftRight_eq_div_pow, Nat.shiftRight_eq_div_pow,
    and_255_eq_mod, and_255_eq_mod, and_1023_eq_mod,
    word3_eq _ _ _ 8 16 (by omega) (by omega)]
  omega

theorem rebuild_word7 (w : ℕ) (hlt : w < 2 ^ 30) :
    (w &&& 0x3FF) ||| ((w >>> 10) &&& 0x3FF) <<< 10 |||
      ((((w >>> 20) &&& 0x3FF) <<< 20) % 2 ^ 32) = w := by
  rw [Nat.shiftRight_eq_div_pow, Nat.shiftRight_eq_div_pow,
    and_1023_eq_mod, and_1023_eq_mod, and_1023_eq_mod,
    mod32_shl20_drop _ (by omega),
    word3_eq _ _ _ 10 20 (by omega) (by omega)]
  omega

theorem rebuild_word8 (w : ℕ) (hlt : w < 2 ^ 16) :
    (w &&& 0xFF) ||| ((w >>> 8) &&& 0xFF) <<< 8 = w := by
  rw [Nat.shiftRight_eq_div_pow, and_255_eq_mod, and_255_eq_mod,
    lor_shl_eq_add _ _ 8 (by omega)]
  omega

/-- C4, counterexample: `c4_wire` is accepted by `decode`, yet re-encoding the
decoded struct zeroes the unused word at offset 0x10, so
`encode (decode c4_wire) ≠ c4_wire`. -/
theorem c4_roundtrip_counterexample :
    (Appearance.decode c4_wire).isSome = true ∧
    (Appearance.decode c4_wire).bind Appearance.encode ≠ some c4_wire := by
  decide

/-- C4, amended: `decode (encode a) = a` for every appearance struct whose
fields satisfy the range constraints, and `encode (decode x) = x` for every
accepted 36-byte wire value in which all the bits the decoder ignores
(including the entire word at offset 0x10) are zero — re-encoding an accepted
wire value with any ignored bit set canonicalises that bit to zero instead. -/
theorem c4_appearance_codec :
    (∀ a : Appearance, a.fieldsInRange →
      ∃ x, Appearance.encode a = some x ∧ Appearance.decode x = some a) ∧
    (∀ x : AppearanceWire, x.canonical →
      ∀ a, Appearance.decode x = some a → Appearance.encode a = some x) := by
  constructor
  · intro a hr
    obtain ⟨h1, h2, h3, h4, h5, h6, h7, h8, h9, h10, h11, h12, h13,
      hfp, hhs, hhc, hec, hsc, hdhc, hdec1, hdsc⟩ := hr
    obtain ⟨phead, hph, hph_le, hph_un⟩ := pack_unpack_optional a.head (optionAll_le _ _ h1)
    obtain ⟨pface, hpf, hpf_le, hpf_un⟩ := pack_unpack_optional a.face (optionAll_le _ _ h2)
    obtain ⟨pglasses, hpg, hpg_le, hpg_un⟩ :=
      pack_unpack_optional a.glasses (optionAll_le _ _ h3)
    obtain ⟨ptops, hpt, hpt_le, hpt_un⟩ := pack_unpack_optional a.tops (optionAll_le _ _ h4)
    obtain ⟨pbottoms, hpb, hpb_le, hpb_un⟩ :=
      pack_unpack_optional a.bottoms (optionAll_le _ _ h5)
    obtain ⟨pshoes, hps, hps_le, hps_un⟩ := pack_unpack_optional a.shoes (optionAll_le _ _ h6)
    obtain ⟨pgloves, hpgl, hpgl_le, hpgl_un⟩ :=
      pack_unpack_optional a.gloves (optionAll_le _ _ h7)
    obtain ⟨pwing, hpw, hpw_le, hpw_un⟩ := pack_unpack_optional a.wing (optionAll_le _ _ h8)
    obtain ⟨pclub, hpc, hpc_le, hpc_un⟩ := pack_unpack_optional a.club (optionAll_le _ _ h9)
    obtain ⟨pskirt, hpsk, hpsk_le, hpsk_un⟩ :=
      pack_unpack_optional a.skirt (optionAll_le _ _ h10)
    obtain ⟨pdtops, hpdt, hpdt_le, hpdt_un⟩ :=
      pack_unpack_optional a.default_tops (optionAll_le _ _ h11)
    obtain ⟨pdbottoms, hpdb, hpdb_le, hpdb_un⟩ :=
      pack_unpack_optional a.default_bottoms (optionAll_le _ _ h12)
    obtain ⟨pdshoes, hpds, hpds_le, hpds_un⟩ :=
      pack_unpack_optional a.default_shoes (optionAll_le _ _ h13)
    have hencode : Appearance.encode a = some
        { w0 := a.character_id.to_index <<< 2 ||| a.face_paint <<< 8 ||| phead <<< 18,
          w1 := pglasses ||| ptops <<< 10 ||| pbottoms <<< 20,
          w2 := pshoes ||| pgloves <<< 10 ||| pwing <<< 20,
          w3 := pclub ||| pface <<< 10 ||| pskirt <<< 20,
          w4 := 0,
          w5 := a.hair_style <<< 10 ||| (a.hair_color <<< 20) % 2 ^ 32,
          w6 := a.eye_color ||| a.skin_color <<< 8 ||| pdtops <<< 16,
          w7 := pdbottoms ||| pdshoes <<< 10 ||| (a.default_hair_color <<< 20) % 2 ^ 32,
          w8 := a.default_eye_color ||| a.default_skin_color <<< 8 } := by
      simp only [Appearance.encode, hph, hpf, hpg, hpt, hpb, hps, hpgl, hpw, hpc, hpsk,
        hpdt, hpdb, hpds, Option.bind_eq_bind, Option.some_bind]
    refine ⟨_, hencode, ?_⟩
    have ht63 : a.character_id.to_index ≤ 0x3F := by
      have := CharID.to_index_le a.character_id
      omega
    have e0 := extract_word0 a.character_id.to_index a.face_paint phead ht63 hfp hph_le
    have e1 := extract_word3_10 pglasses ptops pbottoms hpg_le hpt_le hpb_le
    have e2 := extract_word3_10 pshoes pgloves pwing hps_le hpgl_le hpw_le
    have e3 := extract_word3_10 pclub pface pskirt hpc_le hpf_le hpsk_le
    have e5 := extract_word5 a.hair_style a.hair_color hhs hhc
    have e6 := extract_word6 a.eye_color a.skin_color pdtops hec hsc hpdt_le
    have e7 := extract_word7 pdbottoms pdshoes a.default_hair_color hpdb_le hpds_le hdhc
    have e8 := extract_word8 a.default_eye_color a.default_skin_color hdec1 hdsc
    simp only [Appearance.decode]
    rw [e0.1, CharID.from_to_index, Option.bind_eq_bind, Option.some_bind,
      e0.2.1, e0.2.2, e1.1, e1.2.1, e1.2.2, e2.1, e2.2.1, e2.2.2,
      e3.1, e3.2.1, e3.2.2, e5.1, e5.2, e6.1, e6.2.1, e6.2.2,
      e7.1, e7.2.1, e7.2.2, e8.1, e8.2,
      hph_un, hpg_un, hpt_un, hpb_un, hps_un, hpgl_un, hpw_un, hpc_un, hpf_un, hpsk_un,
      hpdt_un, hpdb_un, hpds_un]
  · intro x hcx a hdec
    obtain ⟨hc0m, hc0, hc1, hc2, hc3, hc4, hc5m, hc5, hc6, hc7, hc8⟩ := hcx
    obtain ⟨w0, w1, w2, w3, w4, w5, w6, w7, w8⟩ := x
    cases hfi : CharID.from_index ((w0 >>> 2) &&& 0x3F) with
    | none =>
      rw [Appearance.decode] at hdec
      simp only [hfi, Option.bind_eq_bind, Option.none_bind] at hdec
      exact Option.noConfusion hdec
    | some c =>
      rw [Appearance.decode] at hdec
      simp only [hfi, Option.bind_eq_bind, Option.some_bind, Option.some.injEq] at hdec
      subst hdec
      have u1 := unpack_pack_optional ((w0 >>> 18) &&& 0x3FF) Nat.and_le_right
      have u2 := unpack_pack_optional (w1 &&& 0x3FF) Nat.and_le_right
      have u3 := unpack_pack_optional ((w1 >>> 10) &&& 0x3FF) Nat.and_le_right
      have u4 := unpack_pack_optional ((w1 >>> 20) &&& 0x3FF) Nat.and_le_right
      have u5 := unpack_pack_optional (w2 &&& 0x3FF) Nat.and_le_right
      have u6 := unpack_pack_optional ((w2 >>> 10) &&& 0x3FF) Nat.and_le_right
      have u7 := unpack_pack_optional ((w2 >>> 20) &&& 0x3FF) Nat.and_le_right
      have u8 := unpack_pack_optional (w3 &&& 0x3FF) Nat.and_le_right
      have u9 := unpack_pack_optional ((w3 >>> 10) &&& 0x3FF) Nat.and_le_right
      have u10 := unpack_pack_optional ((w3 >>> 20) &&& 0x3FF) Nat.and_le_right
      have u11 := unpack_pack_optional ((w6 >>> 16) &&& 0x3FF) Nat.and_le_right
      have u12 := unpack_pack_optional (w7 &&& 0x3FF) Nat.and_le_right
      have u13 := unpack_pack_optional ((w7 >>> 10) &&& 0x3FF) Nat.and_le_right
      simp only [Appearance.encode, u1, u2, u3, u4, u5, u6, u7, u8, u9, u10, u11, u12, u13,
        Option.bind_eq_bind, Option.some_bind, Option.some.injEq]
      rw [CharID.to_from_index _ _ hfi]
      simp only [AppearanceWire.mk.injEq]
      refine ⟨?_, ?_, ?_, ?_, ?_, ?_, ?_, ?_, ?_⟩
      · exact rebuild_word0 w0 _ hc0m hc0 rfl
      · exact rebuild_word3_10 w1 hc1
      · exact rebuild_word3_10 w2 hc2
      · exact rebuild_word3_10 w3 hc3
      · exact hc4.symm
      · exact rebuild_word5 w5 hc5m hc5
      · exact rebuild_word6 w6 hc6
      · exact rebuild_word7 w7 hc7
      · exact rebuild_word8 w8 hc8

/-- C4 witness at the concrete struct `c4_app` and wire value `c4_canon_wire`. -/
theorem c4_appearance_codec_witness :
    (∃ x, Appearance.encode c4_app = some x ∧ Appearance.decode x = some c4_app) ∧
    Appearance.encode c4_app = some c4_canon_wire :=
  ⟨c4_appearance_codec.1 c4_app (by decide),
   c4_appearance_codec.2 c4_canon_wire (by decide) c4_app (by decide)⟩

/-! ## Claim C5: room number allocation -/

theorem pick_free_go_spec (rooms : List Room) (candidate : Int)
    (hsort : rooms.Pairwise (fun a b => a.room_num < b.room_num))
    (hge : ∀ r ∈ rooms, candidate ≤ r.room_num)
    (hle : ∀ r ∈ rooms, r.room_num ≤ 127)
    (hcand : 0 ≤ candidate) (hcand127 : candidate ≤ 127) :
    (∀ n, pick_free_room_num_go candidate rooms = some n →
      candidate ≤ n ∧ n ≤ 127 ∧ (∀ r ∈ rooms, r.room_num ≠ n) ∧
      (∀ m : Int, candidate ≤ m → m < n → ∃ r ∈ rooms, r.room_num = m)) ∧
    (pick_free_room_num_go candidate rooms = none →
      ∀ m : Int, candidate ≤ m → m ≤ 127 → ∃ r ∈ rooms, r.room_num = m) := by
  induction rooms generalizing candidate with
  | nil =>
    constructor
    · intro n hn
      have hn' : candidate = n := by
        simpa [pick_free_room_num_go] using hn
      subst hn'
      exact ⟨le_refl _, hcand127, by simp, fun m h1 h2 => absurd h1 (by omega)⟩
    · intro hn
      simp [pick_free_room_num_go] at hn
  | cons room rest ih =>
    have hsort_head : ∀ r ∈ rest, room.room_num < r.room_num :=
      (List.pairwise_cons.mp hsort).1
    have hsort_rest : rest.Pairwise (fun a b => a.room_num < b.room_num) :=
      (List.pairwise_cons.mp hsort).2
    have hge_head : candidate ≤ room.room_num := hge room (by simp)
    have hle_head : room.room_num ≤ 127 := hle room (by simp)
    by_cases hlt : candidate < room.room_num
    · constructor
      · intro n hn
        have hn' : candidate = n := by
          simpa [pick_free_room_num_go, hlt] using hn
        subst hn'
        refine ⟨le_refl _, hcand127, ?_, fun m h1 h2 => absurd h1 (by omega)⟩
        intro r hr
        rcases List.mem_cons.mp hr with rfl | hr'
        · omega
        · have := hsort_head r hr'
          omega
      · intro hn
        simp [pick_free_room_num_go, hlt] at hn
    · have heq : room.room_num = candidate := by omega
      by_cases h127 : room.room_num = 127
      · constructor
        · intro n hn
          simp [pick_free_room_num_go, hlt, h127] at hn
          omega
        · intro _ m h1 h2
          exact ⟨room, by simp, by omega⟩
      · have hrec := ih (room.room_num + 1) hsort_rest
          (fun r hr => by have := hsort_head r hr; omega)
          (fun r hr => hle r (by simp [hr]))
          (by omega) (by omega)
        have hstep : pick_free_room_num_go candidate (room :: rest) =
            pick_free_room_num_go (room.room_num + 1) rest := by
          simp [pick_free_room_num_go, hlt, h127]
        constructor
        · intro n hn
          rw [hstep] at hn
          obtain ⟨ha, hb, hc, hd⟩ := hrec.1 n hn
          refine ⟨by omega, hb, ?_, ?_⟩
          · intro r hr
            rcases List.mem_cons.mp hr with rfl | hr'
            · omega
            · exact hc r hr'
          · intro m h1 h2
            by_cases hm : m = candidate
            · exact ⟨room, by simp, by omega⟩
            · obtain ⟨r, hr, hr2⟩ := hd m (by omega) h2
              exact ⟨r, by simp [hr], hr2⟩
        · intro hn m h1 h2
          rw [hstep] at hn
          by_cases hm : m = candidate
          · exact ⟨room, by simp, by omega⟩
          · obtain ⟨r, hr, hr2⟩ := hrec.2 hn m (by omega) h2
            exact ⟨r, by simp [hr], hr2⟩

/-- C5: under a sorted room list with numbers in `0..=127`,
`pick_free_room_num` returns the smallest number of `0..=127` not used by any
room of the lobby (`none` exactly when every number below the returned one is
taken and, in the `none` case, when all 128 are taken); and when no number is
free, `handle_make_room` replies with the coded failure `ACK_MAKE_ROOM(-1)`
and leaves the server state — in particular the lobby's room list —
unchanged. -/
theorem c5_room_allocation :
    (∀ l : Lobby, l.rooms.Pairwise (fun a b => a.room_num < b.room_num) →
      (∀ r ∈ l.rooms, 0 ≤ r.room_num ∧ r.room_num ≤ 127) →
      (∀ n, l.pick_free_room_num = some n →
        0 ≤ n ∧ n ≤ 127 ∧ (∀ r ∈ l.rooms, r.room_num ≠ n) ∧
        (∀ m : Int, 0 ≤ m → m < n → ∃ r ∈ l.rooms, r.room_num = m)) ∧
      (l.pick_free_room_num = none →
        ∀ m : Int, 0 ≤ m → m ≤ 127 → ∃ r ∈ l.rooms, r.room_num = m)) ∧
    (∀ (gs : GameServer) (who : ℕ) (data : Packet19) (p : Player) (lobby : Lobby),
      gs.conns[who]? = some p →
      gs.lobbies.lobby data.mode data.lobby = some lobby →
      p.mode = data.mode → p.cur_lobby = data.lobby → p.cur_room < 0 →
      lobby.pick_free_room_num = none →
      gs.handle_make_room who data = .ok gs [(p.cid, .ackMakeRoom (-1))]) := by
  constructor
  · intro l hsort hrange
    exact pick_free_go_spec l.rooms 0 hsort (fun r hr => (hrange r hr).1)
      (fun r hr => (hrange r hr).2) (by omega) (by omega)
  · intro gs who data p lobby hp hlobby hmode hcl hcr hpick
    unfold GameServer.handle_make_room
    rw [hp, hlobby]
    simp [hmode, hcl, hpick]
    omega

/-- C5 witness: with rooms `{0, 1, 3}` the allocator picks `2`; with all 128
numbers taken, `handle_make_room` replies `ACK_MAKE_ROOM(-1)` and changes
nothing. -/
theorem c5_room_allocation_witness :
    ((0 : Int) ≤ 2 ∧ (2 : Int) ≤ 127 ∧ (∀ r ∈ c5_lobby013.rooms, r.room_num ≠ 2) ∧
      (∀ m : Int, 0 ≤ m → m < 2 → ∃ r ∈ c5_lobby013.rooms, r.room_num = m)) ∧
    c5_full_gs.handle_make_room 0 c5_data = .ok c5_full_gs [(600, .ackMakeRoom (-1))] :=
  ⟨(c5_room_allocation.1 c5_lobby013 (by decide) (by decide)).1 2 (by decide),
   c5_room_allocation.2 c5_full_gs 0 c5_data c5_player c5_full_lobby (by decide) (by decide)
     (by decide) (by decide) (by decide) (by decide)⟩

/-- C1, code bug: processing `Logout(601)` removes CID 601 from the lobby
member list and the registry but leaves it in room 0's member list; the next
broadcast to that room (here a `CLIENT_CRCLUB` relay from the remaining
member) panics unwrapping the `conn_lookup` miss on the stale CID instead of
skipping it. -/
theorem c1_logout_room_eviction_bug :
    c1_gs.remove_player 601 = .ok c1_gs_after [(600, .sendUListL 601)] ∧
    (c1_gs_after.lobbies.room .vs 0 0).map Room.members = some [600, 601] ∧
    (c1_gs_after.lobbies.lobby .vs 0).map Lobby.members = some [600] ∧
    (601 : Int) ∉ c1_gs_after.cids ∧
    c1_gs_after.handle_shot_club 0 3 = .panic := by
  decide

/-- C2, code bug: `_enter_room_internal` checks `cur_room > 0`, not
`cur_room >= 0`, so a session whose current-room field records room number 0
is *not* rejected: its enter-room request for room 1 succeeds, mutating both
the target room's member list and the session's `cur_room`.  (For a session
in room 1 the request is rejected with the coded `ACK_ENTER_ROOM` failure
`-1` and no state change, as the claim describes.) -/
theorem c2_enter_room_room_zero_bug :
    c2_gs.handle_enter_room 0 1 "" = .ok c2_gs_after [(600, .ackEnterRoom 1)] ∧
    (c2_gs_after.lobbies.room .vs 0 1).map Room.members = some [600] ∧
    (c2_gs_after.conns[0]?).map Player.cur_room = some 1 ∧
    c2b_gs.handle_enter_room 0 0 "" = .ok c2b_gs [(600, .ackEnterRoom (-1))] := by
  decide

/-- C6, counterexample: a make-room request from a session already in a room,
and an enter-lobby request from a session already in a lobby, both fail the
domain validation with a `bail!` — the handler returns `Err`, the dispatch
loop only logs it, and the requester is sent nothing (the send list is
empty), contradicting the claim that every such failure produces a coded
error reply. -/
theorem c6_dropped_request_counterexample :
    c6_gs.handle_make_room 0 c6_data = .err c6_gs [] ("user is already in a room") ∧
    c6_gs.handle_enter_lobby 0 0 =
      .err c6_gs [] ("trying to join a lobby while already in a lobby") := by
  decide

/-- C6, amended: domain-validation failures split in two groups.  Lobby-full
on enter-lobby and the enter-room failures do reply with a coded packet
(`ACK_ENTER_LOBBY(-1)`; `ACK_ENTER_ROOM` with code `-3` for a wrong password
and `-1` otherwise).  But enter-lobby while already in a lobby, and the
make-room validations (wrong mode, not in the target lobby, already in a
room), `bail!` out of the handler: the request is dropped with only a logged
error and no reply packet to the requester. -/
theorem c6_error_reply_policy :
    (∀ (gs : GameServer) (who : ℕ) (num : Int) (p : Player), gs.conns[who]? = some p →
      0 ≤ p.cur_lobby →
      gs.handle_enter_lobby who num =
        .err gs [] ("trying to join a lobby while already in a lobby")) ∧
    (∀ (gs : GameServer) (who : ℕ) (num : Int) (p : Player) (lobby : Lobby),
      gs.conns[who]? = some p → p.cur_lobby < 0 →
      gs.lobbies.lobby p.mode num = some lobby →
      lobby.max_members ≤ lobby.members.length →
      gs.handle_enter_lobby who num = .ok gs [(p.cid, .ackEnterLobby (-1))]) ∧
    (∀ (gs : GameServer) (who : ℕ) (data : Packet19) (p : Player) (lobby : Lobby),
      gs.conns[who]? = some p → gs.lobbies.lobby data.mode data.lobby = some lobby →
      p.mode ≠ data.mode →
      gs.handle_make_room who data = .err gs [] ("user is not in the mode")) ∧
    (∀ (gs : GameServer) (who : ℕ) (data : Packet19) (p : Player) (lobby : Lobby),
      gs.conns[who]? = some p → gs.lobbies.lobby data.mode data.lobby = some lobby →
      p.mode = data.mode → p.cur_lobby ≠ data.lobby →
      gs.handle_make_room who data = .err gs [] ("user is not in the lobby")) ∧
    (∀ (gs : GameServer) (who : ℕ) (data : Packet19) (p : Player) (lobby : Lobby),
      gs.conns[who]? = some p → gs.lobbies.lobby data.mode data.lobby = some lobby →
      p.mode = data.mode → p.cur_lobby = data.lobby → 0 ≤ p.cur_room →
      gs.handle_make_room who data = .err gs [] ("user is already in a room")) ∧
    (∀ (gs : GameServer) (who : ℕ) (room_num : Int) (password : String)
      (p : Player) (e : EnterRoomError),
      gs.conns[who]? = some p → gs.enter_room_internal who room_num password = .fail e →
      gs.handle_enter_room who room_num password =
        .ok gs [(p.cid, .ackEnterRoom (if e = .wrongPassword then -3 else -1))]) := by
  refine ⟨?_, ?_, ?_, ?_, ?_, ?_⟩
  · intro gs who num p hp hin
    unfold GameServer.handle_enter_lobby
    rw [hp]
    dsimp only
    rw [if_pos hin]
  · intro gs who num p lobby hp hout hlobby hfull
    unfold GameServer.handle_enter_lobby
    rw [hp]
    dsimp only
    rw [if_neg (by omega), hlobby]
    dsimp only
    rw [if_pos hfull]
  · intro gs who data p lobby hp hlobby hmode
    unfold GameServer.handle_make_room
    rw [hp]
    dsimp only
    rw [hlobby]
    dsimp only
    rw [if_pos hmode]
  · intro gs who data p lobby hp hlobby hmode hlob
    unfold GameServer.handle_make_room
    rw [hp]
    dsimp only
    rw [hlobby]
    dsimp only
    rw [if_neg (by simp [hmode]), if_pos hlob]
  · intro gs who data p lobby hp hlobby hmode hlob hroom
    unfold GameServer.handle_make_room
    rw [hp]
    dsimp only
    rw [hlobby]
    dsimp only
    rw [if_neg (by simp [hmode]), if_neg (by simp [hlob]), if_pos hroom]
  · intro gs who room_num password p e hp hfail
    unfold GameServer.handle_enter_room
    rw [hfail]
    dsimp only
    rw [hp]

/-- C6 witness: each clause of the amended policy at a concrete state. -/
theorem c6_error_reply_policy_witness :
    c6_gs.handle_enter_lobby 0 0 =
      .err c6_gs [] ("trying to join a lobby while already in a lobby") ∧
    c6_full_gs.handle_enter_lobby 0 0 =
      .ok c6_full_gs [(c6_full_player.cid, .ackEnterLobby (-1))] ∧
    c6_mode_gs.handle_make_room 0 c6_data = .err c6_mode_gs [] ("user is not in the mode") ∧
    c6_nolobby_gs.handle_make_room 0 c6_data =
      .err c6_nolobby_gs [] ("user is not in the lobby") ∧
    c6_gs.handle_make_room 0 c6_data = .err c6_gs [] ("user is already in a room") ∧
    c6_pw_gs.handle_enter_room 0 0 "xyz" =
      .ok c6_pw_gs [(c6_pw_player.cid, .ackEnterRoom (if EnterRoomError.wrongPassword =
        EnterRoomError.wrongPassword then -3 else -1))] :=
  ⟨c6_error_reply_policy.1 c6_gs 0 0 c6_player (by decide) (by decide),
   c6_error_reply_policy.2.1 c6_full_gs 0 0 c6_full_player c6_full_lobby (by decide)
     (by decide) (by decide) (by decide),
   c6_error_reply_policy.2.2.1 c6_mode_gs 0 c6_data c6_mode_player c6_lobby (by decide)
     (by decide) (by decide),
   c6_error_reply_policy.2.2.2.1 c6_nolobby_gs 0 c6_data c6_nolobby_player c6_lobby
     (by decide) (by decide) (by decide) (by decide),
   c6_error_reply_policy.2.2.2.2.1 c6_gs 0 c6_data c6_player c6_lobby (by decide) (by decide)
     (by decide) (by decide) (by decide),
   c6_error_reply_policy.2.2.2.2.2 c6_pw_gs 0 0 "xyz" c6_pw_player .wrongPassword
     (by decide) (by decide)⟩

/-! ## Claim C7: shot authority tracking -/

theorem find?_map_room_key (rooms : List Room) (rn : Int) (f : Room → Room)
    (hf : ∀ r, (f r).room_num = r.room_num) :
    (rooms.map (fun r => if r.room_num == rn then f r else r)).find?
        (fun r => r.room_num == rn) =
      (rooms.find? (fun r => r.room_num == rn)).map f := by
  induction rooms with
  | nil => rfl
  | cons r rest ih =>
    by_cases h : r.room_num == rn
    · rw [List.map_cons, if_pos h, List.find?_cons, List.find?_cons, hf r, h]
      rfl
    · have hfalse : (r.room_num == rn) = false := by simpa using h
      rw [List.map_cons, if_neg h, List.find?_cons, List.find?_cons, hfalse]
      exact ih

theorem lobby_modifyLobby_self (ls : Lobbies) (mode : Mode) (ln : Int) (g : Lobby → Lobby) :
    (ls.modifyLobby mode ln g).lobby mode ln = (ls.lobby mode ln).map g := by
  unfold Lobbies.modifyLobby Lobbies.lobby Lobbies.lobbiesFor
  by_cases hln : 0 ≤ ln
  · cases mode <;> simp [hln, List.getElem?_modify]
  · cases mode <;> simp [hln]

theorem room_modifyRoom_self (ls : Lobbies) (mode : Mode) (ln rn : Int) (f : Room → Room)
    (hf : ∀ r, (f r).room_num = r.room_num) :
    (ls.modifyRoom mode ln rn f).room mode ln rn = (ls.room mode ln rn).map f := by
  unfold Lobbies.modifyRoom Lobbies.room
  rw [lobby_modifyLobby_self]
  cases h : ls.lobby mode ln with
  | none => rfl
  | some lobby =>
    dsimp only [Option.map_some]
    exact find?_map_room_key lobby.rooms rn f hf

/-- C7: a shot-info message from a room member records that member's CID as
the room's current shot authority; a ball-stopped message from a member whose
CID differs from the current shot authority is dropped — no packet is relayed
to anyone (not even the sender) and the server state is unchanged. -/
theorem c7_shot_authority (gs : GameServer) (who : ℕ) (p : Player) (room : Room)
    (hp : gs.conns[who]? = some p)
    (hmem : p.cid ∈ room.members)
    (hroom : gs.lobbies.room p.mode p.cur_lobby p.cur_room = some room) :
    (∀ gs' sends, gs.handle_shot_info who = .ok gs' sends →
      gs'.lobbies.room p.mode p.cur_lobby p.cur_room =
        some { room with current_player := p.cid }) ∧
    (p.cid ≠ room.current_player → gs.handle_stop_ballpos who = .ok gs []) := by
  have hf : ∀ r : Room, ({ r with current_player := p.cid } : Room).room_num = r.room_num :=
    fun r => rfl
  constructor
  · intro gs' sends h
    unfold GameServer.handle_shot_info at h
    rw [hp] at h
    try dsimp only at h
    rw [hroom] at h
    try dsimp only at h
    unfold GameServer.send_packet_to_roommates at h
    try dsimp only at h
    rw [hp] at h
    try dsimp only at h
    rw [room_modifyRoom_self _ _ _ _ _ hf, hroom, Option.map_some'] at h
    try dsimp only at h
    cases hres : GameServer.resolveSends
        { gs with lobbies := (gs.lobbies.modifyRoom p.mode p.cur_lobby p.cur_room
            (fun r => { r with current_player := p.cid })) }
        ({ room with current_player := p.cid }).members p.cid (.sendShot p.cid) with
    | none =>
      rw [hres] at h
      exact absurd h (by simp)
    | some s =>
      rw [hres] at h
      have hgs : gs' = { gs with lobbies := (gs.lobbies.modifyRoom p.mode p.cur_lobby
          p.cur_room (fun r => { r with current_player := p.cid })) } := by
        cases h
        rfl
      rw [hgs]
      dsimp only
      rw [room_modifyRoom_self _ _ _ _ _ hf, hroom]
      rfl
  · intro hne
    unfold GameServer.handle_stop_ballpos
    rw [hp]
    dsimp only
    rw [hroom]
    dsimp only
    have hb : (p.cid != room.current_player) = true := by
      simp [bne_iff_ne, hne]
    rw [hb]
    rfl

/-- C7 witness: session 600's shot-info sets the authority to 600; a
ball-stopped message from session 601 (not the authority) is dropped with no
relays and no state change. -/
theorem c7_shot_authority_witness :
    c7_gs_shot.lobbies.room Mode.vs 0 0 = some { c7_room with current_player := 600 } ∧
    c7_gs.handle_stop_ballpos 1 = .ok c7_gs [] :=
  ⟨(c7_shot_authority c7_gs 0 c7_player0 c7_room (by decide) (by decide) (by decide)).1
      c7_gs_shot [(601, .sendShot 600)] (by decide),
   (c7_shot_authority c7_gs 1 c7_player1 c7_room (by decide) (by decide) (by decide)).2
      (by decide)⟩

/-! ## Claims C8 and C10: the session registry and CID generation -/

theorem generate_cid_step_range (next : Int) (h1 : 600 ≤ next) (h2 : next ≤ 999) :
    600 ≤ generate_cid_step next ∧ generate_cid_step next ≤ 999 := by
  unfold generate_cid_step
  split <;> omega

theorem generate_cid_fuel_free (fuel : ℕ) (next : Int) (used : List Int) (cid next' : Int)
    (h : generate_cid_fuel fuel next used = some (cid, next')) : cid ∉ used := by
  induction fuel generalizing next with
  | zero => simp [generate_cid_fuel] at h
  | succ n ih =>
    unfold generate_cid_fuel at h
    dsimp only at h
    by_cases hc : next ∈ used
    · rw [if_pos hc] at h
      exact ih _ h
    · rw [if_neg hc] at h
      simp only [Option.some.injEq, Prod.mk.injEq] at h
      obtain ⟨rfl, rfl⟩ := h
      exact hc

theorem generate_cid_fuel_range (fuel : ℕ) (next : Int) (used : List Int) (cid next' : Int)
    (hn1 : 600 ≤ next) (hn2 : next ≤ 999)
    (h : generate_cid_fuel fuel next used = some (cid, next')) :
    600 ≤ cid ∧ cid ≤ 999 ∧ 600 ≤ next' ∧ next' ≤ 999 := by
  induction fuel generalizing next with
  | zero => simp [generate_cid_fuel] at h
  | succ n ih =>
    unfold generate_cid_fuel at h
    dsimp only at h
    obtain ⟨hs1, hs2⟩ := generate_cid_step_range next hn1 hn2
    by_cases hc : next ∈ used
    · rw [if_pos hc] at h
      exact ih _ hs1 hs2 h
    · rw [if_neg hc] at h
      simp only [Option.some.injEq, Prod.mk.injEq] at h
      obtain ⟨rfl, rfl⟩ := h
      exact ⟨hn1, hn2, hs1, hs2⟩

theorem generate_cid_fuel_find (fuel : ℕ) (next : Int) (used : List Int) :
    (generate_cid_fuel fuel next used).map Prod.fst =
      (cid_candidates fuel next).find? (fun c => decide (c ∉ used)) := by
  induction fuel generalizing next with
  | zero => rfl
  | succ n ih =>
    unfold generate_cid_fuel cid_candidates
    dsimp only
    rw [List.find?_cons]
    by_cases hc : next ∈ used
    · have hd : decide (next ∉ used) = false := by simp [hc]
      rw [hd, if_pos hc, ih]
    · have hd : decide (next ∉ used) = true := by simp [hc]
      rw [hd, if_neg hc]
      rfl

theorem set_getElem_self {α : Type} (l : List α) (i : ℕ) (v : α) (h : l[i]? = some v) :
    l.set i v = l := by
  apply List.ext_getElem?
  intro j
  rw [List.getElem?_set]
  by_cases hij : i = j
  · subst hij
    have hlt : i < l.length := by
      by_contra hge
      rw [List.getElem?_eq_none (by omega)] at h
      exact Option.noConfusion h
    simp [hlt, h.symm]
  · simp [hij]

theorem cids_set (conns : List Player) (who : ℕ) (p q : Player)
    (hp : conns[who]? = some p) (hq : q.cid = p.cid) :
    (conns.set who q).map Player.cid = conns.map Player.cid := by
  rw [List.map_set]
  apply set_getElem_self
  rw [List.getElem?_map, hp, Option.map_some', hq]

theorem set_perm_eraseIdx_append {α : Type} (xs : List α) (i : ℕ) (x : α)
    (h : i < xs.length) :
    (xs.set i x).Perm (xs.eraseIdx i ++ [x]) := by
  induction xs generalizing i with
  | nil => simp at h
  | cons a t ih =>
    cases i with
    | zero =>
      rw [List.set_cons_zero, List.eraseIdx_cons_zero]
      exact (List.perm_append_singleton x t).symm
    | succ n =>
      rw [List.set_cons_succ, List.eraseIdx_cons_succ, List.cons_append]
      exact List.Perm.cons a (ih n (by simpa using h))

theorem swapRemove_perm {α : Type} (l : List α) (i : ℕ) (h : i < l.length) :
    (swapRemove l i).Perm (l.eraseIdx i) := by
  induction l using List.reverseRecOn with
  | nil => simp at h
  | append_singleton xs x _ =>
    unfold swapRemove
    rw [List.getLast?_concat]
    dsimp only
    by_cases hi : i < xs.length
    · rw [List.set_append, if_pos hi, List.dropLast_concat,
        List.eraseIdx_append_of_lt_length hi]
      exact set_perm_eraseIdx_append xs i x hi
    · have hlen : i = xs.length := by
        simp only [List.length_append, List.length_cons, List.length_nil] at h
        omega
      subst hlen
      rw [List.set_append, if_neg (by omega)]
      simp only [Nat.sub_self, List.set_cons_zero, List.dropLast_concat,
        List.eraseIdx_append_of_length_le (le_refl _), Nat.sub_self,
        List.eraseIdx_cons_zero, List.append_nil]
      exact List.Perm.refl xs

theorem send_packet_to_roommates_state (gs : GameServer) (who : ℕ) (pkt : Packet)
    (gs' : GameServer) (h : (gs.send_packet_to_roommates who pkt).state? = some gs') :
    gs' = gs := by
  unfold GameServer.send_packet_to_roommates at h
  split at h
  · exact absurd h (by simp [HRes.state?])
  · split at h
    · simp only [HRes.state?, Option.some.injEq] at h
      exact h.symm
    · split at h
      · exact absurd h (by simp [HRes.state?])
      · simp only [HRes.state?, Option.some.injEq] at h
        exact h.symm

theorem handle_enter_lobby_registry (gs : GameServer) (who : ℕ) (num : Int)
    (gs' : GameServer) (h : (gs.handle_enter_lobby who num).state? = some gs') :
    gs'.cids = gs.cids ∧ gs'.next_cid = gs.next_cid := by
  unfold GameServer.handle_enter_lobby at h
  split at h
  · exact absurd h (by simp [HRes.state?])
  · rename_i p hp
    split at h
    · simp only [HRes.state?, Option.some.injEq] at h
      subst h
      exact ⟨rfl, rfl⟩
    · split at h
      · simp only [HRes.state?, Option.some.injEq] at h
        subst h
        exact ⟨rfl, rfl⟩
      · split at h
        · simp only [HRes.state?, Option.some.injEq] at h
          subst h
          exact ⟨rfl, rfl⟩
        · dsimp only at h
          split at h
          · exact absurd h (by simp [HRes.state?])
          · simp only [HRes.state?, Option.some.injEq] at h
            subst h
            exact ⟨cids_set gs.conns who p _ hp rfl, rfl⟩

theorem handle_make_room_registry (gs : GameServer) (who : ℕ) (data : Packet19)
    (gs' : GameServer) (h : (gs.handle_make_room who data).state? = some gs') :
    gs'.cids = gs.cids ∧ gs'.next_cid = gs.next_cid := by
  unfold GameServer.handle_make_room at h
  split at h
  · exact absurd h (by simp [HRes.state?])
  · rename_i p hp
    split at h
    · simp only [HRes.state?, Option.some.injEq] at h
      subst h
      exact ⟨rfl, rfl⟩
    · split at h
      · simp only [HRes.state?, Option.some.injEq] at h
        subst h
        exact ⟨rfl, rfl⟩
      · split at h
        · simp only [HRes.state?, Option.some.injEq] at h
          subst h
          exact ⟨rfl, rfl⟩
        · split at h
          · simp only [HRes.state?, Option.some.injEq] at h
            subst h
            exact ⟨rfl, rfl⟩
          · split at h
            · simp only [HRes.state?, Option.some.injEq] at h
              subst h
              exact ⟨rfl, rfl⟩
            · simp only [HRes.state?, Option.some.injEq] at h
              subst h
              exact ⟨cids_set gs.conns who p _ hp rfl, rfl⟩

theorem enter_room_internal_registry (gs : GameServer) (who : ℕ) (rn : Int) (pw : String)
    (gs' : GameServer) (sends : List (Int × Packet))
    (h : gs.enter_room_internal who rn pw = .ok gs' sends) :
    gs'.cids = gs.cids ∧ gs'.next_cid = gs.next_cid := by
  unfold GameServer.enter_room_internal at h
  split at h
  · exact ERes.noConfusion h
  · rename_i p hp
    split at h
    · exact ERes.noConfusion h
    · split at h
      · exact ERes.noConfusion h
      · split at h
        · exact ERes.noConfusion h
        · split at h
          · exact ERes.noConfusion h
          · dsimp only at h
            split at h
            · exact ERes.noConfusion h
            · simp only [ERes.ok.injEq] at h
              obtain ⟨h1, h2⟩ := h
              subst h1
              exact ⟨cids_set gs.conns who p _ hp rfl, rfl⟩

theorem handle_enter_room_registry (gs : GameServer) (who : ℕ) (rn : Int) (pw : String)
    (gs' : GameServer) (h : (gs.handle_enter_room who rn pw).state? = some gs') :
    gs'.cids = gs.cids ∧ gs'.next_cid = gs.next_cid := by
  unfold GameServer.handle_enter_room at h
  split at h
  · rename_i gs2 sends heq
    simp only [HRes.state?, Option.some.injEq] at h
    subst h
    exact enter_room_internal_registry _ _ _ _ _ _ heq
  · exact absurd h (by simp [HRes.state?])
  · split at h
    · exact absurd h (by simp [HRes.state?])
    · simp only [HRes.state?, Option.some.injEq] at h
      subst h
      exact ⟨rfl, rfl⟩

theorem handle_shot_club_registry (gs : GameServer) (who : ℕ) (club : Int)
    (gs' : GameServer) (h : (gs.handle_shot_club who club).state? = some gs') :
    gs' = gs := by
  unfold GameServer.handle_shot_club at h
  split at h
  · exact absurd h (by simp [HRes.state?])
  · exact send_packet_to_roommates_state _ _ _ _ h

theorem handle_shot_info_registry (gs : GameServer) (who : ℕ)
    (gs' : GameServer) (h : (gs.handle_shot_info who).state? = some gs') :
    gs'.cids = gs.cids ∧ gs'.next_cid = gs.next_cid := by
  unfold GameServer.handle_shot_info at h
  split at h
  · exact absurd h (by simp [HRes.state?])
  · rename_i p hp
    have hst := send_packet_to_roommates_state _ _ _ _ h
    subst hst
    split
    · exact ⟨rfl, rfl⟩
    · exact ⟨rfl, rfl⟩

theorem handle_stop_ballpos_registry (gs : GameServer) (who : ℕ)
    (gs' : GameServer) (h : (gs.handle_stop_ballpos who).state? = some gs') :
    gs'.cids = gs.cids ∧ gs'.next_cid = gs.next_cid := by
  unfold GameServer.handle_stop_ballpos at h
  split at h
  · exact absurd h (by simp [HRes.state?])
  · rename_i p hp
    dsimp only at h
    cases hr : gs.lobbies.room p.mode p.cur_lobby p.cur_room with
    | none =>
      rw [hr] at h
      dsimp only at h
      rw [if_neg (by simp)] at h
      split at h
      · rename_i gs2 sends heq
        simp only [HRes.state?, Option.some.injEq] at h
        subst h
        have hgs2 : gs2 = gs := send_packet_to_roommates_state _ _ _ _ (by rw [heq]; rfl)
        subst hgs2
        exact ⟨rfl, rfl⟩
      · rename_i gs2 sends msg heq
        simp only [HRes.state?, Option.some.injEq] at h
        subst h
        have hgs2 : gs2 = gs := send_packet_to_roommates_state _ _ _ _ (by rw [heq]; rfl)
        subst hgs2
        exact ⟨rfl, rfl⟩
      · exact absurd h (by simp [HRes.state?])
    | some room =>
      rw [hr] at h
      dsimp only at h
      by_cases hrej : (p.cid != room.current_player) = true
      · rw [if_pos hrej] at h
        simp only [HRes.state?, Option.some.injEq] at h
        subst h
        exact ⟨rfl, rfl⟩
      · rw [if_neg hrej] at h
        split at h
        · rename_i gs2 sends heq
          simp only [HRes.state?, Option.some.injEq] at h
          subst h
          have hgs2 : gs2 = gs := send_packet_to_roommates_state _ _ _ _ (by rw [heq]; rfl)
          subst hgs2
          exact ⟨rfl, rfl⟩
        · rename_i gs2 sends msg heq
          simp only [HRes.state?, Option.some.injEq] at h
          subst h
          have hgs2 : gs2 = gs := send_packet_to_roommates_state _ _ _ _ (by rw [heq]; rfl)
          subst hgs2
          exact ⟨rfl, rfl⟩
        · exact absurd h (by simp [HRes.state?])

theorem eject_from_lobby_registry (gs : GameServer) (who : ℕ)
    (gs' : GameServer) (h : (gs.eject_from_lobby who).state? = some gs') :
    gs'.cids = gs.cids ∧ gs'.next_cid = gs.next_cid := by
  unfold GameServer.eject_from_lobby at h
  split at h
  · exact absurd h (by simp [HRes.state?])
  · rename_i p hp
    split at h
    · simp only [HRes.state?, Option.some.injEq] at h
      subst h
      exact ⟨rfl, rfl⟩
    · split at h
      · dsimp only at h
        split at h
        · exact absurd h (by simp [HRes.state?])
        · simp only [HRes.state?, Option.some.injEq] at h
          subst h
          exact ⟨cids_set gs.conns who p _ hp rfl, rfl⟩
      · exact absurd h (by simp [HRes.state?])

theorem swapRemove_registry (gs2 gs : GameServer) (who : ℕ)
    (hcids : gs2.cids = gs.cids) (hwholt : who < gs.conns.length) :
    (gs.cids.Nodup → ((swapRemove gs2.conns who).map Player.cid).Nodup) ∧
    (∀ c ∈ (swapRemove gs2.conns who).map Player.cid, c ∈ gs.cids) := by
  have hlen : gs2.conns.length = gs.conns.length := by
    have h1 : gs2.cids.length = gs.cids.length := by rw [hcids]
    simpa [GameServer.cids] using h1
  have hperm := (swapRemove_perm gs2.conns who (by omega)).map Player.cid
  have hsub : ((gs2.conns.eraseIdx who).map Player.cid).Sublist gs2.cids :=
    (List.eraseIdx_sublist _ _).map Player.cid
  constructor
  · intro hn
    have hn2 : gs2.cids.Nodup := hcids ▸ hn
    exact hperm.nodup_iff.mpr (hn2.sublist hsub)
  · intro c hc
    have hc2 : c ∈ (gs2.conns.eraseIdx who).map Player.cid := hperm.mem_iff.mp hc
    have hc3 : c ∈ gs2.cids := hsub.subset hc2
    exact hcids ▸ hc3

theorem remove_player_registry (gs : GameServer) (cid : Int) (gs' : GameServer)
    (h : (gs.remove_player cid).state? = some gs') :
    (gs.cids.Nodup → gs'.cids.Nodup) ∧ (∀ c ∈ gs'.cids, c ∈ gs.cids) ∧
    gs'.next_cid = gs.next_cid := by
  unfold GameServer.remove_player at h
  split at h
  · simp only [HRes.state?, Option.some.injEq] at h
    subst h
    exact ⟨id, fun c hc => hc, rfl⟩
  · rename_i who hwho
    have hwholt : who < gs.conns.length :=
      (List.findIdx?_eq_some_iff_findIdx_eq.mp hwho).1
    split at h
    · exact absurd h (by simp [HRes.state?])
    · rename_i p hp
      dsimp only at h
      by_cases hl : 0 ≤ p.cur_lobby
      · rw [if_pos hl] at h
        split at h
        · exact absurd h (by simp [HRes.state?])
        · rename_i gs2 sends msg heq
          simp only [HRes.state?, Option.some.injEq] at h
          subst h
          have hgs2 := eject_from_lobby_registry gs who gs2 (by rw [heq]; rfl)
          exact ⟨fun hn => hgs2.1 ▸ hn, fun c hc => hgs2.1 ▸ hc, hgs2.2⟩
        · rename_i gs2 sends heq
          simp only [HRes.state?, Option.some.injEq] at h
          subst h
          have hgs2 := eject_from_lobby_registry gs who gs2 (by rw [heq]; rfl)
          obtain ⟨hnd, hmem⟩ := swapRemove_registry gs2 gs who hgs2.1 hwholt
          exact ⟨hnd, hmem, hgs2.2⟩
      · rw [if_neg hl] at h
        dsimp only at h
        simp only [HRes.state?, Option.some.injEq] at h
        subst h
        obtain ⟨hnd, hmem⟩ := swapRemove_registry gs gs who rfl hwholt
        exact ⟨hnd, hmem, rfl⟩

theorem handle_login_registry (gs : GameServer) (fuel : ℕ) (auth : Option AccountInfo)
    (gs' : GameServer) (r : LoginResult) (sends : List (Int × Packet))
    (h : gs.handle_login fuel auth = some (gs', r, sends)) (hinv : RegistryInv gs) :
    RegistryInv gs' := by
  unfold GameServer.handle_login at h
  split at h
  · simp only [Option.some.injEq, Prod.mk.injEq] at h
    rw [← h.1]
    exact hinv
  · split at h
    · simp only [Option.some.injEq, Prod.mk.injEq] at h
      rw [← h.1]
      exact hinv
    · split at h
      · exact Option.noConfusion h
      · rename_i pair cid next' hgen
        simp only [Option.some.injEq, Prod.mk.injEq] at h
        obtain ⟨hnodup, hrange, hn1, hn2⟩ := hinv
        have hfree := generate_cid_fuel_free _ _ _ _ _ hgen
        have hrange2 := generate_cid_fuel_range _ _ _ _ _ hn1 hn2 hgen
        rw [← h.1]
        refine ⟨?_, ?_, hrange2.2.2.1, hrange2.2.2.2⟩
        · simp only [GameServer.cids, List.map_append, List.map_cons, List.map_nil]
          rw [List.nodup_append]
          refine ⟨hnodup, by simp, ?_⟩
          intro a ha hb
          simp only [List.mem_singleton] at hb
          subst hb
          exact hfree ha
        · simp only [GameServer.cids, List.map_append, List.map_cons, List.map_nil]
          intro c hc
          rcases List.mem_append.mp hc with hc | hc
          · exact hrange c hc
          · simp only [List.mem_singleton] at hc
            subst hc
            exact ⟨hrange2.1, hrange2.2.1⟩

/-- Every reachable state satisfies the registry invariant. -/
theorem reachable_registry_inv (gs : GameServer) (h : Reachable gs) : RegistryInv gs := by
  induction h with
  | init =>
    refine ⟨List.nodup_nil, ?_, by decide, by decide⟩
    intro c hc
    simp [initial_server, GameServer.cids] at hc
  | login gs fuel auth gs' r sends _ heq ih =>
    exact handle_login_registry gs fuel auth gs' r sends heq ih
  | logout gs cid gs' _ heq ih =>
    obtain ⟨hn, hsub, hnext⟩ := remove_player_registry gs cid gs' heq
    exact ⟨hn ih.1, fun c hc => ih.2.1 c (hsub c hc), hnext ▸ ih.2.2.1, hnext ▸ ih.2.2.2⟩
  | enterLobby gs who num gs' _ heq ih =>
    obtain ⟨hc, hn⟩ := handle_enter_lobby_registry gs who num gs' heq
    exact ⟨hc ▸ ih.1, hc ▸ ih.2.1, hn ▸ ih.2.2.1, hn ▸ ih.2.2.2⟩
  | makeRoom gs who data gs' _ heq ih =>
    obtain ⟨hc, hn⟩ := handle_make_room_registry gs who data gs' heq
    exact ⟨hc ▸ ih.1, hc ▸ ih.2.1, hn ▸ ih.2.2.1, hn ▸ ih.2.2.2⟩
  | enterRoom gs who rn pw gs' _ heq ih =>
    obtain ⟨hc, hn⟩ := handle_enter_room_registry gs who rn pw gs' heq
    exact ⟨hc ▸ ih.1, hc ▸ ih.2.1, hn ▸ ih.2.2.1, hn ▸ ih.2.2.2⟩
  | shotClub gs who club gs' _ heq ih =>
    have := handle_shot_club_registry gs who club gs' heq
    subst this
    exact ih
  | shotInfo gs who gs' _ heq ih =>
    obtain ⟨hc, hn⟩ := handle_shot_info_registry gs who gs' heq
    exact ⟨hc ▸ ih.1, hc ▸ ih.2.1, hn ▸ ih.2.2.1, hn ▸ ih.2.2.2⟩
  | stopBallpos gs who gs' _ heq ih =>
    obtain ⟨hc, hn⟩ := handle_stop_ballpos_registry gs who gs' heq
    exact ⟨hc ▸ ih.1, hc ▸ ih.2.1, hn ▸ ih.2.2.1, hn ▸ ih.2.2.2⟩

/-- C8: in every reachable server state the registered sessions carry
pairwise-distinct CIDs, every CID lies in the pool `600..=999`, and whenever
CID generation returns it returns a pool value that is not currently
registered — namely the first candidate of the wrap-around sequence
`next_cid, next_cid + 1, …, 999, 600, …` that is not in use. -/
theorem c8_registry_invariant (gs : GameServer) (h : Reachable gs) :
    gs.cids.Nodup ∧ (∀ c ∈ gs.cids, 600 ≤ c ∧ c ≤ 999) ∧
    (∀ (fuel : ℕ) (cid next' : Int),
      generate_cid_fuel fuel gs.next_cid gs.cids = some (cid, next') →
      cid ∉ gs.cids ∧ 600 ≤ cid ∧ cid ≤ 999 ∧
      (cid_candidates fuel gs.next_cid).find? (fun c => decide (c ∉ gs.cids)) = some cid) := by
  obtain ⟨h1, h2, h3, h4⟩ := reachable_registry_inv gs h
  refine ⟨h1, h2, ?_⟩
  intro fuel cid next' hgen
  have hfree := generate_cid_fuel_free _ _ _ _ _ hgen
  have hrange := generate_cid_fuel_range _ _ _ _ _ h3 h4 hgen
  have hfind := generate_cid_fuel_find fuel gs.next_cid gs.cids
  rw [hgen] at hfind
  exact ⟨hfree, hrange.1, hrange.2.1, hfind.symm⟩

theorem c8_gs1_reachable : Reachable c8_gs1 :=
  Reachable.login initial_server 400 (some c8_account1) c8_gs1 (.success 600)
    [(600, .ackIdpassG 600), (600, .ordColorResult 600)] Reachable.init (by decide)

/-- C8 witness at the reachable one-session state `c8_gs1`. -/
theorem c8_registry_invariant_witness :
    c8_gs1.cids.Nodup ∧
    ((601 : Int) ∉ c8_gs1.cids ∧ (600 : Int) ≤ 601 ∧ (601 : Int) ≤ 999 ∧
      (cid_candidates 400 c8_gs1.next_cid).find? (fun c => decide (c ∉ c8_gs1.cids)) =
        some 601) :=
  ⟨(c8_registry_invariant c8_gs1 c8_gs1_reachable).1,
   (c8_registry_invariant c8_gs1 c8_gs1_reachable).2.2 400 601 602 (by decide)⟩

/-! ## Claim C10: termination of CID generation -/

theorem generate_cid_full_none (used : List Int)
    (hfull : ∀ c : Int, 600 ≤ c → c ≤ 999 → c ∈ used) :
    ∀ (fuel : ℕ) (next : Int), 600 ≤ next → next ≤ 999 →
      generate_cid_fuel fuel next used = none := by
  intro fuel
  induction fuel with
  | zero => intro next _ _; rfl
  | succ n ih =>
    intro next h1 h2
    unfold generate_cid_fuel
    dsimp only
    rw [if_pos (hfull next h1 h2)]
    obtain ⟨hs1, hs2⟩ := generate_cid_step_range next h1 h2
    exact ih _ hs1 hs2

theorem generate_cid_none_covers (used : List Int) :
    ∀ (fuel : ℕ) (next : Int), 600 ≤ next → next ≤ 999 →
      generate_cid_fuel fuel next used = none →
      ∀ k : ℕ, k < fuel → wrapCid next k ∈ used := by
  intro fuel
  induction fuel with
  | zero => intro next _ _ _ k hk; omega
  | succ n ih =>
    intro next h1 h2 h k hk
    unfold generate_cid_fuel at h
    dsimp only at h
    by_cases hc : next ∈ used
    · rw [if_pos hc] at h
      obtain ⟨hs1, hs2⟩ := generate_cid_step_range next h1 h2
      cases k with
      | zero =>
        have hw : wrapCid next 0 = next := by
          unfold wrapCid
          omega
        rw [hw]
        exact hc
      | succ m =>
        have heq : wrapCid next (m + 1) = wrapCid (generate_cid_step next) m := by
          unfold wrapCid generate_cid_step
          split <;> (push_cast; omega)
        rw [heq]
        exact ih _ hs1 hs2 h m (by omega)
    · rw [if_neg hc] at h
      exact Option.noConfusion h

/-- C10: with any free pool value, its 400-step search (one step per pool
value) finds an unused CID; with the whole pool `600..=999` in use, the loop
never returns no matter how long it runs, and `handle_login` — which performs
no capacity check before calling `generate_cid` — diverges with it rather
than replying with a failure code. -/
theorem c10_cid_generation_termination :
    (∀ (next : Int) (used : List Int), 600 ≤ next → next ≤ 999 →
      (∃ c : Int, 600 ≤ c ∧ c ≤ 999 ∧ c ∉ used) →
      ∃ cid next', generate_cid_fuel 400 next used = some (cid, next') ∧
        cid ∉ used ∧ 600 ≤ cid ∧ cid ≤ 999) ∧
    (∀ (next : Int) (used : List Int), 600 ≤ next → next ≤ 999 →
      (∀ c : Int, 600 ≤ c → c ≤ 999 → c ∈ used) →
      ∀ fuel : ℕ, generate_cid_fuel fuel next used = none) ∧
    (∀ (gs : GameServer) (account : AccountInfo) (fuel : ℕ),
      600 ≤ gs.next_cid → gs.next_cid ≤ 999 →
      (∀ c : Int, 600 ≤ c → c ≤ 999 → c ∈ gs.cids) →
      gs.conns.any (fun conn => conn.uid == account.uid) = false →
      gs.handle_login fuel (some account) = none) := by
  refine ⟨?_, ?_, ?_⟩
  · intro next used h1 h2 hfree
    obtain ⟨c, hc1, hc2, hc3⟩ := hfree
    cases hgen : generate_cid_fuel 400 next used with
    | none =>
      exfalso
      have hcov := generate_cid_none_covers used 400 next h1 h2 hgen
      have hk : ((c - next) % 400).toNat < 400 := by omega
      have hw : wrapCid next ((c - next) % 400).toNat = c := by
        unfold wrapCid
        omega
      exact hc3 (hw ▸ hcov _ hk)
    | some pair =>
      obtain ⟨cid, next'⟩ := pair
      have hfree2 := generate_cid_fuel_free _ _ _ _ _ hgen
      have hrange := generate_cid_fuel_range _ _ _ _ _ h1 h2 hgen
      exact ⟨cid, next', rfl, hfree2, hrange.1, hrange.2.1⟩
  · intro next used h1 h2 hfull fuel
    exact generate_cid_full_none used hfull fuel next h1 h2
  · intro gs account fuel h1 h2 hfull hany
    unfold GameServer.handle_login
    dsimp only
    rw [hany, if_neg (by simp), generate_cid_full_none gs.cids hfull fuel gs.next_cid h1 h2]

set_option maxRecDepth 10000 in
theorem c10_full_gs_covers : ∀ c : Int, 600 ≤ c → c ≤ 999 → c ∈ c10_full_gs.cids := by
  intro c h1 h2
  show c ∈ c10_full_conns.map Player.cid
  have hmem : (c - 600).toNat ∈ List.range 400 := List.mem_range.mpr (by omega)
  have h3 := List.mem_map_of_mem
    (fun i : ℕ => ({ cid := 600 + (i : Int), uid := (i : Int), mode := Mode.none,
                     cur_lobby := -1, cur_room := -1 } : Player)) hmem
  have h4 := List.mem_map_of_mem Player.cid h3
  dsimp only at h4
  have h5 : (600 : Int) + (((c - 600).toNat : ℕ) : Int) = c := by omega
  rw [h5] at h4
  exact h4

set_option maxRecDepth 8000 in
/-- C10 witness: generation succeeds from the empty registry, and with the
full pool both the bare loop and a login attempt diverge. -/
theorem c10_cid_generation_termination_witness :
    (∃ cid next', generate_cid_fuel 400 600 [] = some (cid, next') ∧
      cid ∉ ([] : List Int) ∧ 600 ≤ cid ∧ cid ≤ 999) ∧
    generate_cid_fuel 7 600 c10_full_gs.cids = none ∧
    c10_full_gs.handle_login 400 (some c10_account) = none :=
  ⟨c10_cid_generation_termination.1 600 [] (by decide) (by decide)
      ⟨600, by decide, by decide, by decide⟩,
   c10_cid_generation_termination.2.1 600 c10_full_gs.cids (by decide) (by decide)
      c10_full_gs_covers 7,
   c10_cid_generation_termination.2.2 c10_full_gs c10_account 400 (by decide) (by decide)
      c10_full_gs_covers (by decide)⟩

end SplashSrv
